import Mathlib

/-!
# OpenGL video output common code

A shallow embedding of `modules/video_output/opengl.c`: the texture sizing
helper `GetAlignedSize`, the backend state `vout_display_opengl_t`, and the five
public operations `vout_display_opengl_New`, `_Delete`, `_GetPool`, `_Prepare`
and `_Display`.

Conventions.

* Machine integers are `Nat` (for `unsigned`) and `Int` (for `int`), with the
  32-bit wrap-around written out (`toUnsigned`, `toInt`).
* Pointers and handles are `Nat`, `0` being `NULL`.
* Every operation returns, next to its C result, the list of calls it made to
  its collaborators (the graphics context, the GL entry points, the allocator,
  the picture and picture-pool API), in program order.
* Whatever a collaborator answers (a lock that fails, an allocation that
  returns `NULL`, the names `glGenTextures` hands out) is an explicit argument
  of the operation.
* The preprocessor configuration is the value `BuildConfig`.
-/

namespace OpenGL

/-! ## Machine integers -/

/-- Conversion of an `int` to `unsigned` (32 bits, two's complement). -/
def toUnsigned (x : Int) : Nat := (x % 2 ^ 32).toNat

/-- Conversion of a 32-bit pattern to `int` (two's complement wrap-around). -/
def toInt (x : Nat) : Int :=
  if x % 2 ^ 32 < 2 ^ 31 then ((x % 2 ^ 32 : Nat) : Int)
  else ((x % 2 ^ 32 : Nat) : Int) - 2 ^ 32

/-- The loop of the portable `clz`: `while (x) { x = x >> 1; i--; }`.
The first argument bounds the number of iterations. -/
def clzLoop : Nat → Nat → Nat → Nat
  | 0, _, i => i
  | fuel + 1, x, i => if x = 0 then i else clzLoop fuel (x >>> 1) (i - 1)

/-- Modelled from the spec: `clz` is declared in `vlc_common.h`, which is not
among the sources at hand; it is the count of leading zero bits of an
`unsigned`, the reading under which `GetAlignedSize` computes the "next power of
two ≥ the source dimension" of the specification. The definition is the portable
one, `unsigned i = sizeof (x) * 8; while (x) { x = x >> 1; i--; } return i;`
(32 iterations are enough for a 32-bit argument); the compiler builtin agrees
with it on every non-zero argument and is undefined at `0`, where the loop
gives `32`. -/
def clz (x : Nat) : Nat := clzLoop 32 x 32

/-- The function `GetAlignedSize` (lines 100-105).

`1 << n` is computed on `int` and stored in an `unsigned`: the model keeps the
low 32 bits of the mathematical shift, so `1 << 31` is the pattern `2^31` and
the out-of-range `1 << 32` (undefined in C) is `0`. The result is returned as
an `int`. -/
def GetAlignedSize (size : Nat) : Int :=
  let align : Nat := (1 <<< (8 * 4 - clz size)) % 2 ^ 32
  toInt (if align >>> 1 = size then size else align)

/-! ## Build configuration -/

/-- The value of `USE_OPENGL_ES`: not defined, `1` or `2`. -/
inductive GLESVersion
  | undefined
  | v1
  | v2
  deriving DecidableEq, Repr

/-- The preprocessor configuration the file is compiled under. -/
structure BuildConfig where
  /-- is `__APPLE__` defined -/
  apple : Bool
  USE_OPENGL_ES : GLESVersion
  WORDS_BIGENDIAN : Bool
  deriving DecidableEq, Repr

/-- `MACOS_OPENGL` is defined on Apple builds that select no GL ES version
(lines 38-55). -/
def MACOS_OPENGL (cfg : BuildConfig) : Bool :=
  cfg.apple && decide (cfg.USE_OPENGL_ES = GLESVersion.undefined)

/-- `VLCGL_TEXTURE_COUNT` (lines 65-71). -/
def VLCGL_TEXTURE_COUNT (cfg : BuildConfig) : Nat :=
  if cfg.USE_OPENGL_ES ≠ GLESVersion.undefined then 1
  else if MACOS_OPENGL cfg then 2
  else 1

/-! ## Data model -/

/-- The chroma codes the file names, and any other code a caller may pass. -/
inductive vlc_fourcc_t
  | VLC_CODEC_RGB16
  | VLC_CODEC_RGB32
  | VLC_CODEC_UYVY
  | VLC_CODEC_YUYV
  | other (code : Nat)
  deriving DecidableEq, Repr

/-- The GL enumerants the file uses. -/
inductive GLenum
  | GL_EXTENSIONS
  | GL_TEXTURE_2D
  | GL_TEXTURE_RECTANGLE_EXT
  | GL_RGB
  | GL_RGBA
  | GL_YCBCR_422_APPLE
  | GL_UNSIGNED_BYTE
  | GL_UNSIGNED_SHORT_5_6_5
  | GL_UNSIGNED_SHORT_8_8_APPLE
  | GL_BLEND
  | GL_DEPTH_TEST
  | GL_CULL_FACE
  | GL_FRAGMENT_PROGRAM_ARB
  | GL_TEXTURE_PRIORITY
  | GL_TEXTURE_MAG_FILTER
  | GL_TEXTURE_MIN_FILTER
  | GL_TEXTURE_WRAP_S
  | GL_TEXTURE_WRAP_T
  | GL_LINEAR
  | GL_CLAMP_TO_EDGE
  | GL_UNPACK_CLIENT_STORAGE_APPLE
  | GL_TEXTURE_STORAGE_HINT_APPLE
  | GL_STORAGE_SHARED_APPLE
  | GL_VERTEX_ARRAY
  | GL_TEXTURE_COORD_ARRAY
  | GL_POLYGON
  | GL_TRIANGLE_STRIP
  deriving DecidableEq, Repr

/-- The fields of `video_format_t` the file reads or writes. The width, the
height, the offsets and the masks are `unsigned`. -/
structure video_format_t where
  i_chroma : vlc_fourcc_t
  i_width : Nat
  i_height : Nat
  i_x_offset : Nat
  i_y_offset : Nat
  i_visible_width : Nat
  i_visible_height : Nat
  i_rmask : Nat
  i_gmask : Nat
  i_bmask : Nat
  deriving DecidableEq, Repr

/-- The field of `vlc_chroma_description_t` the file reads (an `unsigned`). -/
structure vlc_chroma_description_t where
  pixel_size : Nat
  deriving DecidableEq, Repr

/-- The struct `picture_sys_t` (lines 274-277). The back pointer `vgl` is the state
the operation is called on; `texture` points into `vgl->texture` and is kept
as the index of the slot. -/
structure picture_sys_t where
  texture : Nat
  deriving DecidableEq, Repr

/-- The first plane of a picture: `p_pixels`, `i_lines` and `i_pitch` (both
`int`). -/
structure plane_t where
  p_pixels : Nat
  i_lines : Int
  i_pitch : Int
  deriving DecidableEq, Repr

/-- The fields of `picture_resource_t` that `vout_display_opengl_GetPool`
fills: `p_sys` (`none` is `NULL`) and plane `0`. -/
structure picture_resource_t where
  p_sys : Option picture_sys_t
  p0 : plane_t
  deriving DecidableEq, Repr

/-- The fields of `picture_t` the file reads. -/
structure picture_t where
  p_sys : Option picture_sys_t
  p0 : plane_t
  deriving DecidableEq, Repr

/-- The struct `vout_display_opengl_t` (lines 73-98). The three arrays have
`VLCGL_TEXTURE_COUNT` entries. -/
structure vout_display_opengl_t where
  gl : Nat
  fmt : video_format_t
  chroma : vlc_chroma_description_t
  tex_target : GLenum
  tex_format : GLenum
  tex_type : GLenum
  tex_width : Int
  tex_height : Int
  texture : List Nat
  buffer : List Nat
  buffer_base : List Nat
  pool : Nat
  program : Nat
  GenProgramsARB : Nat
  BindProgramARB : Nat
  ProgramStringARB : Nat
  DeleteProgramsARB : Nat
  deriving DecidableEq, Repr

/-- The two status codes the file returns. -/
inductive vlc_status
  | VLC_SUCCESS
  | VLC_EGENERIC
  deriving DecidableEq, Repr

/-! ## Calls to the collaborators -/

/-- The entry points asked of `vlc_gl_GetProcAddress`. -/
inductive ProcName
  | glGenProgramsARB
  | glBindProgramARB
  | glProgramStringARB
  | glDeleteProgramsARB
  deriving DecidableEq, Repr

/-- A call to a GL entry point, with the arguments that are integers or
enumerants. Texture coordinates and vertex positions are floats and are left
out. -/
inductive GLCall
  | glGetString (name : GLenum)
  | glDisable (cap : GLenum)
  | glEnable (cap : GLenum)
  | glDepthMask
  | glClearColor
  | glClear
  | glFinish
  | glFlush
  | glDeleteTextures (n : Nat) (textures : List Nat)
  | DeleteProgramsARB (program : Nat)
  | glGenTextures (n : Nat)
  | glBindTexture (target : GLenum) (texture : Nat)
  | glTexParameterf (target : GLenum) (pname : GLenum)
  | glTexEnvf
  | glTexParameteri (target : GLenum) (pname : GLenum) (param : GLenum)
  | glPixelStorei (pname : GLenum)
  | glTexImage2D (target : GLenum) (width : Int) (height : Int) (pixels : Nat)
  | glTexSubImage2D (target : GLenum) (width : Int) (height : Int) (pixels : Nat)
  | glBegin (mode : GLenum)
  | glTexCoord2f
  | glVertex2f
  | glEnd
  | glEnableClientState (array : GLenum)
  | glVertexPointer
  | glTexCoordPointer
  | glDrawArrays (mode : GLenum)
  deriving DecidableEq, Repr

/-- A call made by an operation. `vlc_gl_Lock ok` records whether the
acquisition succeeded; an allocation records the pointer it returned. -/
inductive Event
  | calloc (ok : Bool)
  | free_vgl
  | vlc_gl_Lock (ok : Bool)
  | vlc_gl_Unlock
  | vlc_gl_Swap
  | vlc_gl_GetProcAddress (name : ProcName)
  | gl (call : GLCall)
  | vlc_memalign (base : Nat) (buf : Nat) (size : Nat)
  | malloc_sys (ok : Bool)
  | free (ptr : Nat)
  | picture_NewFromResource (rsc : picture_resource_t) (picture : Nat)
  | picture_Delete (picture : Nat)
  | picture_pool_NewExtended (picture_count : Nat) (picture : List Nat)
      (hooks : Bool) (pool : Nat)
  | picture_pool_Delete (pool : Nat)
  deriving DecidableEq, Repr

/-! ## Construction -/

/-- What the collaborators answer during `vout_display_opengl_New`: whether
`calloc` and `vlc_gl_Lock` succeed, what `strstr` finds in the extension string
(a `NULL` string is replaced by the empty one, where nothing is found), what
`vlc_gl_GetProcAddress` resolves, and the chroma description table. -/
structure NewEnv where
  calloc_ok : Bool
  lock_ok : Bool
  has_GL_ARB_fragment_program : Bool
  has_GL_APPLE_texture_2D_limited_npot : Bool
  has_GL_ARB_texture_non_power_of_two : Bool
  vlc_gl_GetProcAddress : ProcName → Nat
  vlc_fourcc_GetChromaDescription : vlc_fourcc_t → vlc_chroma_description_t

/-- The format the backend settles on (lines 139-177): the caller's format with
the chroma, and for the RGB profiles the masks, replaced. -/
def negotiatedFormat (cfg : BuildConfig) (fmt : video_format_t) : video_format_t :=
  if cfg.USE_OPENGL_ES ≠ GLESVersion.undefined then
    if cfg.WORDS_BIGENDIAN then
      { fmt with i_chroma := vlc_fourcc_t.VLC_CODEC_RGB16,
                 i_rmask := 0x001f, i_gmask := 0x07e0, i_bmask := 0xf800 }
    else
      { fmt with i_chroma := vlc_fourcc_t.VLC_CODEC_RGB16,
                 i_rmask := 0xf800, i_gmask := 0x07e0, i_bmask := 0x001f }
  else if MACOS_OPENGL cfg then
    if cfg.WORDS_BIGENDIAN then { fmt with i_chroma := vlc_fourcc_t.VLC_CODEC_YUYV }
    else { fmt with i_chroma := vlc_fourcc_t.VLC_CODEC_UYVY }
  else
    if cfg.WORDS_BIGENDIAN then
      { fmt with i_chroma := vlc_fourcc_t.VLC_CODEC_RGB32,
                 i_rmask := 0xff000000, i_gmask := 0x00ff0000, i_bmask := 0x0000ff00 }
    else
      { fmt with i_chroma := vlc_fourcc_t.VLC_CODEC_RGB32,
                 i_rmask := 0x000000ff, i_gmask := 0x0000ff00, i_bmask := 0x00ff0000 }

/-- The texture target of the profile (lines 151, 160, 174). -/
def profileTarget (cfg : BuildConfig) : GLenum :=
  if cfg.USE_OPENGL_ES ≠ GLESVersion.undefined then GLenum.GL_TEXTURE_2D
  else if MACOS_OPENGL cfg then GLenum.GL_TEXTURE_RECTANGLE_EXT
  else GLenum.GL_TEXTURE_2D

/-- The texture format of the profile (lines 152, 161, 175). -/
def profileFormat (cfg : BuildConfig) : GLenum :=
  if cfg.USE_OPENGL_ES ≠ GLESVersion.undefined then GLenum.GL_RGB
  else if MACOS_OPENGL cfg then GLenum.GL_YCBCR_422_APPLE
  else GLenum.GL_RGBA

/-- The texture type of the profile (lines 153, 162, 176). -/
def profileType (cfg : BuildConfig) : GLenum :=
  if cfg.USE_OPENGL_ES ≠ GLESVersion.undefined then GLenum.GL_UNSIGNED_SHORT_5_6_5
  else if MACOS_OPENGL cfg then GLenum.GL_UNSIGNED_SHORT_8_8_APPLE
  else GLenum.GL_UNSIGNED_BYTE

/-- The flag `supports_npot` (lines 181-189). -/
def supports_npot (cfg : BuildConfig) (env : NewEnv) : Bool :=
  if cfg.USE_OPENGL_ES = GLESVersion.v2 then true
  else if MACOS_OPENGL cfg then true
  else false || (env.has_GL_APPLE_texture_2D_limited_npot ||
                 env.has_GL_ARB_texture_non_power_of_two)

/-- The texture size (lines 191-200). Both branches store into an `int`. -/
def textureSize (npot : Bool) (dim : Nat) : Int :=
  if npot then toInt dim else GetAlignedSize dim

/-- The function `vout_display_opengl_New` (lines 107-248). It returns the new
state (`none` is `NULL`), the format left in `*fmt`, and the calls made.

The fragment program is never built: `code` is `NULL` at line 205, so the
block at lines 206-225 does not run and `program` stays `0`. -/
def vout_display_opengl_New (cfg : BuildConfig) (env : NewEnv)
    (fmt : video_format_t) (gl : Nat) :
    Option vout_display_opengl_t × video_format_t × List Event :=
  if env.calloc_ok = false then (none, fmt, [Event.calloc false])
  else if env.lock_ok = false then
    (none, fmt, [Event.calloc true, Event.vlc_gl_Lock false, Event.free_vgl])
  else
    let fp := env.has_GL_ARB_fragment_program
    let resolve (name : ProcName) : Nat := if fp then env.vlc_gl_GetProcAddress name else 0
    let vfmt := negotiatedFormat cfg fmt
    let npot := supports_npot cfg env
    let vgl : vout_display_opengl_t :=
      { gl := gl,
        fmt := vfmt,
        chroma := env.vlc_fourcc_GetChromaDescription vfmt.i_chroma,
        tex_target := profileTarget cfg,
        tex_format := profileFormat cfg,
        tex_type := profileType cfg,
        tex_width := textureSize npot vfmt.i_width,
        tex_height := textureSize npot vfmt.i_height,
        texture := List.replicate (VLCGL_TEXTURE_COUNT cfg) 0,
        buffer := List.replicate (VLCGL_TEXTURE_COUNT cfg) 0,
        buffer_base := List.replicate (VLCGL_TEXTURE_COUNT cfg) 0,
        pool := 0,
        program := 0,
        GenProgramsARB := resolve ProcName.glGenProgramsARB,
        BindProgramARB := resolve ProcName.glBindProgramARB,
        ProgramStringARB := resolve ProcName.glProgramStringARB,
        DeleteProgramsARB := resolve ProcName.glDeleteProgramsARB }
    let trace : List Event :=
      [Event.calloc true, Event.vlc_gl_Lock true,
       Event.gl (GLCall.glGetString GLenum.GL_EXTENSIONS)]
      ++ (if fp then
            [Event.vlc_gl_GetProcAddress ProcName.glGenProgramsARB,
             Event.vlc_gl_GetProcAddress ProcName.glBindProgramARB,
             Event.vlc_gl_GetProcAddress ProcName.glProgramStringARB,
             Event.vlc_gl_GetProcAddress ProcName.glDeleteProgramsARB]
          else [])
      ++ [Event.gl (GLCall.glDisable GLenum.GL_BLEND),
          Event.gl (GLCall.glDisable GLenum.GL_DEPTH_TEST),
          Event.gl GLCall.glDepthMask,
          Event.gl (GLCall.glDisable GLenum.GL_CULL_FACE),
          Event.gl GLCall.glClearColor,
          Event.gl GLCall.glClear,
          Event.vlc_gl_Unlock]
    (some vgl, vfmt, trace)

/-! ## Teardown -/

/-- The function `vout_display_opengl_Delete` (lines 250-270). `lock_ok` tells
whether `vlc_gl_Lock` succeeds. -/
def vout_display_opengl_Delete (cfg : BuildConfig) (lock_ok : Bool)
    (vgl : vout_display_opengl_t) : List Event :=
  (if lock_ok then
      [Event.vlc_gl_Lock true,
       Event.gl GLCall.glFinish,
       Event.gl GLCall.glFlush,
       Event.gl (GLCall.glDeleteTextures (VLCGL_TEXTURE_COUNT cfg) vgl.texture)]
      ++ (if vgl.program ≠ 0 then [Event.gl (GLCall.DeleteProgramsARB vgl.program)] else [])
      ++ [Event.vlc_gl_Unlock]
    else [Event.vlc_gl_Lock false])
  ++ (if vgl.pool ≠ 0 then
        Event.picture_pool_Delete vgl.pool ::
          (List.range (VLCGL_TEXTURE_COUNT cfg)).map
            (fun i => Event.free (vgl.buffer_base.getD i 0))
      else [])
  ++ [Event.free_vgl]

/-! ## The picture pool -/

/-- What the collaborators answer during `vout_display_opengl_GetPool`, per
texture unit where the call is made once per unit: the base and the aligned
pointer `vlc_memalign` hands out (an aligned pointer `0` is a failure), whether
`malloc` of the `picture_sys_t` succeeds, the picture
`picture_NewFromResource` returns, the pool `picture_pool_NewExtended` returns,
whether `vlc_gl_Lock` succeeds, and the names `glGenTextures` writes. -/
structure PoolEnv where
  vlc_memalign : Nat → Nat × Nat
  malloc_sys : Nat → Bool
  picture_NewFromResource : Nat → Nat
  picture_pool_NewExtended : Nat
  lock_ok : Bool
  glGenTextures : Nat → Nat

/-- The size passed to `vlc_memalign` (line 319):
`tex_width * tex_height * pixel_size`, an `int` product converted to `unsigned`
and multiplied by an `unsigned`, all on 32 bits. -/
def stagingSize (vgl : vout_display_opengl_t) : Nat :=
  (toUnsigned (vgl.tex_width * vgl.tex_height) * vgl.chroma.pixel_size) % 2 ^ 32

/-- The resource wrapped around the staging buffer of unit `i` (lines 323-335).
`sys_ok` tells whether the `malloc` of line 326 succeeded. -/
def frameResource (cfg : BuildConfig) (vgl : vout_display_opengl_t) (i : Nat)
    (sys_ok : Bool) : picture_resource_t :=
  { p_sys := if MACOS_OPENGL cfg && sys_ok then some { texture := i } else none,
    p0 := { p_pixels := vgl.buffer.getD i 0,
            i_pitch := toInt (vgl.fmt.i_width * vgl.chroma.pixel_size),
            i_lines := toInt vgl.fmt.i_height } }

/-- The allocation loop (lines 317-343), from unit `i` on, with at most `fuel`
iterations left. It returns the value of `i` when the loop is left, the state,
the pictures created, and the calls made. -/
def allocLoop (cfg : BuildConfig) (env : PoolEnv) :
    Nat → Nat → vout_display_opengl_t → List Nat →
      Nat × vout_display_opengl_t × List Nat × List Event
  | 0, i, vgl, picture => (i, vgl, picture, [])
  | fuel + 1, i, vgl, picture =>
    let m := env.vlc_memalign i
    let vgl1 := { vgl with buffer := vgl.buffer.set i m.2,
                           buffer_base := vgl.buffer_base.set i m.1 }
    let e_alloc := Event.vlc_memalign m.1 m.2 (stagingSize vgl)
    if m.2 = 0 then (i, vgl1, picture, [e_alloc])
    else
      let rsc := frameResource cfg vgl1 i (env.malloc_sys i)
      let e_sys := if MACOS_OPENGL cfg then [Event.malloc_sys (env.malloc_sys i)] else []
      let pic := env.picture_NewFromResource i
      let e_pic := Event.picture_NewFromResource rsc pic
      if pic = 0 then
        (i, { vgl1 with buffer := vgl1.buffer.set i 0 }, picture,
          e_alloc :: e_sys ++ [e_pic, Event.free m.2])
      else
        let r := allocLoop cfg env fuel (i + 1) vgl1 (picture ++ [pic])
        (r.1, r.2.1, r.2.2.1, e_alloc :: e_sys ++ e_pic :: r.2.2.2)

/-- The `error` label (lines 407-412): the pictures of the units below `i` are
deleted and their `buffer` entries reset. -/
def poolError (i : Nat) (vgl : vout_display_opengl_t) (picture : List Nat) :
    vout_display_opengl_t × List Event :=
  ((List.range i).foldl (fun v j => { v with buffer := v.buffer.set j 0 }) vgl,
   (List.range i).map (fun j => Event.picture_Delete (picture.getD j 0)))

/-- The GL calls that set up the texture of unit `i` (lines 365-400). -/
def textureSetup (cfg : BuildConfig) (vgl : vout_display_opengl_t) (i : Nat) :
    List GLCall :=
  [GLCall.glBindTexture vgl.tex_target (vgl.texture.getD i 0)]
  ++ (if cfg.USE_OPENGL_ES = GLESVersion.undefined then
        [GLCall.glTexParameterf vgl.tex_target GLenum.GL_TEXTURE_PRIORITY,
         GLCall.glTexEnvf]
      else [])
  ++ [GLCall.glTexParameteri vgl.tex_target GLenum.GL_TEXTURE_MAG_FILTER GLenum.GL_LINEAR,
      GLCall.glTexParameteri vgl.tex_target GLenum.GL_TEXTURE_MIN_FILTER GLenum.GL_LINEAR,
      GLCall.glTexParameteri vgl.tex_target GLenum.GL_TEXTURE_WRAP_S GLenum.GL_CLAMP_TO_EDGE,
      GLCall.glTexParameteri vgl.tex_target GLenum.GL_TEXTURE_WRAP_T GLenum.GL_CLAMP_TO_EDGE]
  ++ (if MACOS_OPENGL cfg then
        [GLCall.glEnable GLenum.GL_UNPACK_CLIENT_STORAGE_APPLE,
         GLCall.glPixelStorei GLenum.GL_UNPACK_CLIENT_STORAGE_APPLE,
         GLCall.glTexParameteri vgl.tex_target GLenum.GL_TEXTURE_STORAGE_HINT_APPLE
           GLenum.GL_STORAGE_SHARED_APPLE]
      else [])
  ++ (if vgl.buffer.getD i 0 ≠ 0 then
        [GLCall.glTexImage2D vgl.tex_target vgl.tex_width vgl.tex_height
           (vgl.buffer.getD i 0)]
      else [])

/-- The texture creation of lines 363-401, run with the context held:
`glGenTextures` writes the names into `vgl->texture`, then each unit is set
up. It returns the state and the GL calls made. -/
def createTextures (cfg : BuildConfig) (env : PoolEnv) (vgl : vout_display_opengl_t) :
    vout_display_opengl_t × List GLCall :=
  let vgl3 := { vgl with
    texture := (List.range (VLCGL_TEXTURE_COUNT cfg)).map env.glGenTextures }
  (vgl3, GLCall.glGenTextures (VLCGL_TEXTURE_COUNT cfg) ::
    (List.range (VLCGL_TEXTURE_COUNT cfg)).flatMap (textureSetup cfg vgl3))

/-- The function `vout_display_opengl_GetPool` (lines 309-413). It returns the
pool (`0` is `NULL`), the state it leaves, and the calls made. -/
def vout_display_opengl_GetPool (cfg : BuildConfig) (env : PoolEnv)
    (vgl : vout_display_opengl_t) : Nat × vout_display_opengl_t × List Event :=
  if vgl.pool ≠ 0 then (vgl.pool, vgl, [])
  else
    let r := allocLoop cfg env (VLCGL_TEXTURE_COUNT cfg) 0 vgl []
    let i := r.1
    let picture := r.2.2.1
    if i < VLCGL_TEXTURE_COUNT cfg then
      let e := poolError i r.2.1 picture
      (0, e.1, r.2.2.2 ++ e.2)
    else
      let vgl2 := { r.2.1 with pool := env.picture_pool_NewExtended }
      let e_pool := Event.picture_pool_NewExtended i picture (MACOS_OPENGL cfg)
        env.picture_pool_NewExtended
      if vgl2.pool = 0 then
        let e := poolError i vgl2 picture
        (0, e.1, r.2.2.2 ++ e_pool :: e.2)
      else if env.lock_ok = false then
        (vgl2.pool, vgl2, r.2.2.2 ++ [e_pool, Event.vlc_gl_Lock false])
      else
        let t := createTextures cfg env vgl2
        (t.1.pool, t.1,
          r.2.2.2 ++ [e_pool, Event.vlc_gl_Lock true]
          ++ t.2.map Event.gl ++ [Event.vlc_gl_Unlock])

/-! ## Per-frame operations -/

/-- The width argument of `glTexSubImage2D` (lines 294 and 443):
`i_pitch / pixel_size`, an `int` divided by an `unsigned`, hence an unsigned
division, passed on as an `int`. -/
def uploadWidth (vgl : vout_display_opengl_t) (picture : picture_t) : Int :=
  toInt (toUnsigned picture.p0.i_pitch / vgl.chroma.pixel_size)

/-- The helper `get_texture` (lines 280-283): `*picture->p_sys->texture`. It is
`none` when `p_sys` is `NULL`, where the C code dereferences a null pointer. -/
def get_texture (vgl : vout_display_opengl_t) (picture : picture_t) : Option Nat :=
  picture.p_sys.map (fun sys => vgl.texture.getD sys.texture 0)

/-- The pool hook `PictureLock` (lines 285-301), compiled under `MACOS_OPENGL`
only. -/
def PictureLock (lock_ok : Bool) (vgl : vout_display_opengl_t) (picture : picture_t) :
    vlc_status × List Event :=
  match get_texture vgl picture with
  | none => (vlc_status.VLC_SUCCESS, [])
  | some texture =>
    if lock_ok then
      (vlc_status.VLC_SUCCESS,
        [Event.vlc_gl_Lock true,
         Event.gl (GLCall.glBindTexture vgl.tex_target texture),
         Event.gl (GLCall.glTexSubImage2D vgl.tex_target (uploadWidth vgl picture)
           picture.p0.i_lines picture.p0.p_pixels),
         Event.vlc_gl_Unlock])
    else (vlc_status.VLC_SUCCESS, [Event.vlc_gl_Lock false])

/-- The function `vout_display_opengl_Prepare` (lines 415-450). The status is
`none` when the call does not return: under `MACOS_OPENGL`, `get_texture`
dereferences `picture->p_sys`, which is `NULL` for a picture without it. -/
def vout_display_opengl_Prepare (cfg : BuildConfig) (lock_ok : Bool)
    (vgl : vout_display_opengl_t) (picture : picture_t) :
    Option vlc_status × List Event :=
  if lock_ok = false then (some vlc_status.VLC_EGENERIC, [Event.vlc_gl_Lock false])
  else if MACOS_OPENGL cfg then
    match get_texture vgl picture with
    | none => (none, [Event.vlc_gl_Lock true])
    | some texture =>
      (some vlc_status.VLC_SUCCESS,
        [Event.vlc_gl_Lock true,
         Event.gl (GLCall.glBindTexture vgl.tex_target texture),
         Event.vlc_gl_Unlock])
  else
    (some vlc_status.VLC_SUCCESS,
      [Event.vlc_gl_Lock true,
       Event.gl (GLCall.glTexSubImage2D GLenum.GL_TEXTURE_2D (uploadWidth vgl picture)
         picture.p0.i_lines picture.p0.p_pixels),
       Event.vlc_gl_Unlock])

/-- The function `vout_display_opengl_Display` (lines 452-525). The texture
coordinates computed from `source` are floats and are not part of the recorded
calls. -/
def vout_display_opengl_Display (cfg : BuildConfig) (lock_ok : Bool)
    (vgl : vout_display_opengl_t) (_source : video_format_t) : vlc_status × List Event :=
  if lock_ok = false then (vlc_status.VLC_EGENERIC, [Event.vlc_gl_Lock false])
  else
    let cap := if vgl.program ≠ 0 then GLenum.GL_FRAGMENT_PROGRAM_ARB else vgl.tex_target
    let draw : List GLCall :=
      if cfg.USE_OPENGL_ES ≠ GLESVersion.undefined then
        [GLCall.glEnableClientState GLenum.GL_VERTEX_ARRAY,
         GLCall.glEnableClientState GLenum.GL_TEXTURE_COORD_ARRAY,
         GLCall.glVertexPointer,
         GLCall.glTexCoordPointer,
         GLCall.glDrawArrays GLenum.GL_TRIANGLE_STRIP]
      else
        [GLCall.glBegin GLenum.GL_POLYGON,
         GLCall.glTexCoord2f, GLCall.glVertex2f,
         GLCall.glTexCoord2f, GLCall.glVertex2f,
         GLCall.glTexCoord2f, GLCall.glVertex2f,
         GLCall.glTexCoord2f, GLCall.glVertex2f,
         GLCall.glEnd]
    (vlc_status.VLC_SUCCESS,
      [Event.vlc_gl_Lock true, Event.gl GLCall.glClear, Event.gl (GLCall.glEnable cap)]
      ++ draw.map Event.gl
      ++ [Event.gl (GLCall.glDisable cap), Event.vlc_gl_Swap, Event.vlc_gl_Unlock])

/-! ## Observations on the calls made -/

/-- The GL calls of a trace, in order. -/
def glCalls : List Event → List GLCall
  | [] => []
  | Event.gl call :: rest => call :: glCalls rest
  | _ :: rest => glCalls rest

/-- Is the call a GL call or a buffer swap. -/
def Event.isGPU : Event → Bool
  | Event.gl _ => true
  | Event.vlc_gl_Swap => true
  | _ => false

/-- Is the call a call to `vlc_gl_Lock`, successful or not. -/
def Event.isLockAttempt : Event → Bool
  | Event.vlc_gl_Lock _ => true
  | _ => false

/-- Is the call a call to `vlc_gl_Lock` that succeeded. -/
def Event.isAcquired : Event → Bool
  | Event.vlc_gl_Lock true => true
  | _ => false

/-- Is the call a call to `vlc_gl_Unlock`. -/
def Event.isRelease : Event → Bool
  | Event.vlc_gl_Unlock => true
  | _ => false

/-- The locking discipline of a trace, `held` telling whether the context is
acquired when the trace starts: a lock is taken only when not held, an unlock
happens only when held, and every GL call and buffer swap happens when held. -/
def lockDiscipline : Bool → List Event → Bool
  | _, [] => true
  | held, Event.vlc_gl_Lock true :: rest => !held && lockDiscipline true rest
  | held, Event.vlc_gl_Lock false :: rest => !held && lockDiscipline held rest
  | held, Event.vlc_gl_Unlock :: rest => held && lockDiscipline false rest
  | held, e :: rest => (!e.isGPU || held) && lockDiscipline held rest

/-- Is the call neither a GL call, nor a buffer swap, nor a lock or an unlock
of the context. -/
def Event.isNeutral : Event → Bool
  | Event.gl _ => false
  | Event.vlc_gl_Swap => false
  | Event.vlc_gl_Lock _ => false
  | Event.vlc_gl_Unlock => false
  | _ => true

/-- Is the call `glTexSubImage2D`. -/
def Event.isTexSubImage2D : Event → Bool
  | Event.gl (GLCall.glTexSubImage2D _ _ _ _) => true
  | _ => false

/-- Is the call `glTexImage2D`. -/
def Event.isTexImage2D : Event → Bool
  | Event.gl (GLCall.glTexImage2D _ _ _ _) => true
  | _ => false

/-- Is the call a `vlc_memalign` that returned a buffer. -/
def Event.isBufferAlloc : Event → Bool
  | Event.vlc_memalign _ buf _ => decide (buf ≠ 0)
  | _ => false

/-- Is the call a `free` of a staging buffer. -/
def Event.isBufferFree : Event → Bool
  | Event.free _ => true
  | _ => false

/-- Is the call a `picture_NewFromResource` that returned a picture. -/
def Event.isPictureNew : Event → Bool
  | Event.picture_NewFromResource _ picture => decide (picture ≠ 0)
  | _ => false

/-- Is the call a `picture_Delete`. -/
def Event.isPictureDelete : Event → Bool
  | Event.picture_Delete _ => true
  | _ => false

/-- Does the call, when it is a `vlc_memalign`, ask for `size` bytes, and when
it is a `picture_NewFromResource`, wrap a plane of pitch `pitch` and of `lines`
lines. -/
def Event.sizedAs (size : Nat) (pitch lines : Int) : Event → Bool
  | Event.vlc_memalign _ _ n => decide (n = size)
  | Event.picture_NewFromResource rsc _ =>
    decide (rsc.p0.i_pitch = pitch) && decide (rsc.p0.i_lines = lines)
  | _ => true

/-- The kinds of calls a teardown is observed through. -/
inductive Kind
  | Acquire
  | DeleteTextures
  | DeleteProgram
  | Release
  | PoolRelease
  | FreeBuffer
  deriving DecidableEq, Repr

/-- The kind of a call, for the calls that have one: `vlc_gl_Lock`,
`glDeleteTextures`, `DeleteProgramsARB`, `vlc_gl_Unlock`, `picture_pool_Delete`
and the `free` of a staging buffer. -/
def Event.kind : Event → Option Kind
  | Event.vlc_gl_Lock _ => some Kind.Acquire
  | Event.gl (GLCall.glDeleteTextures _ _) => some Kind.DeleteTextures
  | Event.gl (GLCall.DeleteProgramsARB _) => some Kind.DeleteProgram
  | Event.vlc_gl_Unlock => some Kind.Release
  | Event.picture_pool_Delete _ => some Kind.PoolRelease
  | Event.free _ => some Kind.FreeBuffer
  | _ => none

/-- The trace restricted to the calls that have a kind. -/
def kinds (trace : List Event) : List Kind := trace.filterMap Event.kind

/-- The largest source dimension the `int` texture size represents: any `int`
when the dimension is copied, `2^30` when it is rounded up to a power of two. -/
def maxDimension (npot : Bool) : Nat := if npot then 2 ^ 31 - 1 else 2 ^ 30

/-- Modelled from the spec: `picture_NewFromResource` is not among the sources
at hand; a pooled frame wraps the staging buffer it is given, so the `p_sys` and
the plane of the picture are those of the resource. -/
def pictureOfResource (rsc : picture_resource_t) : picture_t :=
  { p_sys := rsc.p_sys, p0 := rsc.p0 }

/-! ## Sample inputs -/

/-- The generic build: not Apple, no GL ES, little endian. -/
def genericConfig : BuildConfig :=
  { apple := false, USE_OPENGL_ES := GLESVersion.undefined, WORDS_BIGENDIAN := false }

/-- The dual-buffering build: Apple, no GL ES. -/
def macosConfig : BuildConfig :=
  { apple := true, USE_OPENGL_ES := GLESVersion.undefined, WORDS_BIGENDIAN := false }

/-- The chroma table for the chromas the backend selects: two bytes per pixel
for the 16-bit and the packed 4:2:2 formats, four for 32-bit RGB. -/
def sampleChroma : vlc_fourcc_t → vlc_chroma_description_t
  | vlc_fourcc_t.VLC_CODEC_RGB32 => { pixel_size := 4 }
  | _ => { pixel_size := 2 }

/-- A context whose lock succeeds, without extensions. -/
def plainEnv : NewEnv :=
  { calloc_ok := true, lock_ok := true,
    has_GL_ARB_fragment_program := false,
    has_GL_APPLE_texture_2D_limited_npot := false,
    has_GL_ARB_texture_non_power_of_two := false,
    vlc_gl_GetProcAddress := fun _ => 0,
    vlc_fourcc_GetChromaDescription := sampleChroma }

/-- A context whose lock succeeds, with `GL_ARB_texture_non_power_of_two`. -/
def npotEnv : NewEnv :=
  { plainEnv with has_GL_ARB_texture_non_power_of_two := true }

/-- A context whose lock fails. -/
def lostEnv : NewEnv := { plainEnv with lock_ok := false }

/-- A format of the given width and height. -/
def sampleFormat (width height : Nat) : video_format_t :=
  { i_chroma := vlc_fourcc_t.other 0, i_width := width, i_height := height,
    i_x_offset := 0, i_y_offset := 0, i_visible_width := width,
    i_visible_height := height, i_rmask := 0, i_gmask := 0, i_bmask := 0 }

/-- The state `vout_display_opengl_New` builds on the generic build for a
640 by 480 source when textures must be powers of two. -/
def sampleState : vout_display_opengl_t :=
  { gl := 1,
    fmt := negotiatedFormat genericConfig (sampleFormat 640 480),
    chroma := { pixel_size := 4 },
    tex_target := GLenum.GL_TEXTURE_2D,
    tex_format := GLenum.GL_RGBA,
    tex_type := GLenum.GL_UNSIGNED_BYTE,
    tex_width := 1024,
    tex_height := 512,
    texture := [0], buffer := [0], buffer_base := [0],
    pool := 0, program := 0,
    GenProgramsARB := 0, BindProgramARB := 0, ProgramStringARB := 0,
    DeleteProgramsARB := 0 }

/-- The state built on the generic build for a 1024 by 1024 source. -/
def squareState : vout_display_opengl_t :=
  { sampleState with
    fmt := negotiatedFormat genericConfig (sampleFormat 1024 1024)
    tex_width := 1024
    tex_height := 1024 }

/-- The state built on the generic build, with
`GL_ARB_texture_non_power_of_two`, for a source of 4294967295 by 4294967295:
both texture dimensions are `-1`. -/
def hugeState : vout_display_opengl_t :=
  { sampleState with
    fmt := negotiatedFormat genericConfig (sampleFormat 4294967295 4294967295)
    tex_width := -1
    tex_height := -1 }

/-- The state built on the generic build, with
`GL_ARB_texture_non_power_of_two`, for a source of 600000000 by 1. -/
def wideState : vout_display_opengl_t :=
  { sampleState with
    fmt := negotiatedFormat genericConfig (sampleFormat 600000000 1)
    tex_width := 600000000
    tex_height := 1 }

/-- The state built on the generic build, without the non-power-of-two
extensions, for a source of 20000 by 10000: the texture is 32768 by 16384. -/
def largeState : vout_display_opengl_t :=
  { sampleState with
    fmt := negotiatedFormat genericConfig (sampleFormat 20000 10000)
    tex_width := 32768
    tex_height := 16384 }

/-- Collaborators that all succeed: unit `i` gets the buffer `4096 * (i + 1)`,
the picture `i + 1` and the texture name `i + 1`; the pool is `77`. -/
def goodPool : PoolEnv :=
  { vlc_memalign := fun i => (4096 * (i + 1), 4096 * (i + 1)),
    malloc_sys := fun _ => true,
    picture_NewFromResource := fun i => i + 1,
    picture_pool_NewExtended := 77,
    lock_ok := true,
    glGenTextures := fun i => i + 1 }

/-- As `goodPool`, but `picture_pool_NewExtended` returns `NULL`. -/
def noPool : PoolEnv := { goodPool with picture_pool_NewExtended := 0 }

/-- As `goodPool`, but the second `vlc_memalign` returns `NULL`. -/
def secondAllocFails : PoolEnv :=
  { goodPool with vlc_memalign := fun i => if i = 0 then (4096, 4096) else (0, 0) }

/-- As `goodPool`, but `vlc_gl_Lock` fails. -/
def lostPool : PoolEnv := { goodPool with lock_ok := false }

/-- The sample state on the dual-buffering build: two texture units. -/
def macosState : vout_display_opengl_t :=
  { sampleState with
    texture := [0, 0]
    buffer := [0, 0]
    buffer_base := [0, 0] }

/-- The sample state once it has the pool `77`. -/
def pooledState : vout_display_opengl_t :=
  { sampleState with
    texture := [1]
    buffer := [4096]
    buffer_base := [4096]
    pool := 77 }

/-- A pool frame of the sample state. -/
def samplePicture : picture_t :=
  pictureOfResource (frameResource genericConfig sampleState 0 true)

/-! ## Arithmetic of the texture size -/

theorem clzLoop_zero (fuel i : Nat) : clzLoop fuel 0 i = i := by
  cases fuel <;> simp [clzLoop]

theorem clzLoop_of_bits (fuel : Nat) :
    ∀ (k x i : Nat), 2 ^ k ≤ x → x < 2 ^ (k + 1) → k < fuel →
      clzLoop fuel x i = i - (k + 1) := by
  induction fuel with
  | zero => intro k x i _ _ h; omega
  | succ fuel ih =>
    intro k x i hlo hhi hk
    have hx : x ≠ 0 := by
      have : 0 < 2 ^ k := Nat.pos_pow_of_pos k (by norm_num)
      omega
    simp only [clzLoop, if_neg hx, Nat.shiftRight_succ, Nat.shiftRight_zero]
    cases k with
    | zero =>
      have h1 : x = 1 := by simp at hlo hhi; omega
      subst h1
      simp [clzLoop_zero]
    | succ k =>
      have h2 : 2 ^ (k + 1) = 2 * 2 ^ k := by rw [pow_succ]; ring
      have h3 : 2 ^ (k + 1 + 1) = 2 * 2 ^ (k + 1) := by rw [pow_succ]; ring
      rw [ih k (x / 2) (i - 1) (by omega) (by omega) (by omega)]
      omega

theorem clz_of_bits (k x : Nat) (hlo : 2 ^ k ≤ x) (hhi : x < 2 ^ (k + 1)) (hk : k < 32) :
    clz x = 31 - k := by
  unfold clz
  rw [clzLoop_of_bits 32 k x 32 hlo hhi hk]
  omega

theorem toInt_of_lt (x : Nat) (h : x < 2 ^ 31) : toInt x = x := by
  have h1 : x % 2 ^ 32 = x := Nat.mod_eq_of_lt (by omega)
  unfold toInt
  rw [h1, if_pos h]

theorem toUnsigned_natCast (x : Nat) (h : x < 2 ^ 32) : toUnsigned (x : Int) = x := by
  unfold toUnsigned
  have h1 : ((x : Int) % 2 ^ 32) = ((x % 2 ^ 32 : Nat) : Int) := by norm_cast
  rw [h1, Int.toNat_natCast, Nat.mod_eq_of_lt h]

theorem GetAlignedSize_of_bits (k d : Nat) (hlo : 2 ^ k ≤ d) (hhi : d < 2 ^ (k + 1))
    (hk : k ≤ 29) :
    GetAlignedSize d = if d = 2 ^ k then (d : Int) else ((2 ^ (k + 1) : Nat) : Int) := by
  have hclz := clz_of_bits k d hlo hhi (by omega)
  have hsh : 8 * 4 - (31 - k) = k + 1 := by omega
  have hp : 2 ^ (k + 1) < 2 ^ 31 := Nat.pow_lt_pow_right (by norm_num) (by omega)
  have hp2 : 2 ^ (k + 1) % 2 ^ 32 = 2 ^ (k + 1) := Nat.mod_eq_of_lt (by omega)
  have hhalf : 2 ^ (k + 1) >>> 1 = 2 ^ k := by
    rw [Nat.shiftRight_succ, Nat.shiftRight_zero, pow_succ]; omega
  unfold GetAlignedSize
  simp only [hclz, hsh, Nat.one_shiftLeft, hp2, hhalf]
  by_cases h : d = 2 ^ k
  · have h2 : 2 ^ k = d := h.symm
    rw [if_pos h2, if_pos h, toInt_of_lt d (by omega)]
  · have h2 : ¬ 2 ^ k = d := fun e => h e.symm
    rw [if_neg h2, if_neg h, toInt_of_lt _ hp]

theorem exists_bits (d : Nat) (h : 0 < d) : ∃ k, 2 ^ k ≤ d ∧ d < 2 ^ (k + 1) :=
  ⟨Nat.log 2 d, Nat.pow_log_le_self 2 (by omega), Nat.lt_pow_succ_log_self (by norm_num) d⟩

theorem bits_le (k d n : Nat) (hlo : 2 ^ k ≤ d) (hd : d < 2 ^ n) : k < n := by
  by_contra hc
  have : 2 ^ n ≤ 2 ^ k := Nat.pow_le_pow_right (by norm_num) (by omega)
  omega

theorem GetAlignedSize_pow (k : Nat) (hk : k ≤ 30) : GetAlignedSize (2 ^ k) = ((2 ^ k : Nat) : Int) := by
  rcases Nat.lt_or_ge k 30 with h | h
  · have hlt : 2 ^ k < 2 ^ (k + 1) := Nat.pow_lt_pow_right (by norm_num) (by omega)
    rw [GetAlignedSize_of_bits k (2 ^ k) (le_refl _) hlt (by omega), if_pos rfl]
  · have : k = 30 := by omega
    subst this
    decide

theorem GetAlignedSize_ge (d : Nat) (h : d ≤ 2 ^ 30) : (d : Int) ≤ GetAlignedSize d := by
  rcases Nat.eq_zero_or_pos d with h0 | h0
  · subst h0; decide
  · rcases Nat.eq_or_lt_of_le h with h30 | h30
    · rw [h30, GetAlignedSize_pow 30 (le_refl _)]
    · obtain ⟨k, hlo, hhi⟩ := exists_bits d h0
      have hk : k < 30 := bits_le k d 30 hlo h30
      rw [GetAlignedSize_of_bits k d hlo hhi (by omega)]
      split
      · exact le_refl _
      · exact_mod_cast hhi.le

/-! ## Construction: the state that is built -/

theorem negotiatedFormat_width (cfg : BuildConfig) (fmt : video_format_t) :
    (negotiatedFormat cfg fmt).i_width = fmt.i_width := by
  unfold negotiatedFormat
  split_ifs <;> rfl

theorem negotiatedFormat_height (cfg : BuildConfig) (fmt : video_format_t) :
    (negotiatedFormat cfg fmt).i_height = fmt.i_height := by
  unfold negotiatedFormat
  split_ifs <;> rfl

theorem New_state (cfg : BuildConfig) (env : NewEnv) (fmt : video_format_t) (gl : Nat)
    (vgl : vout_display_opengl_t)
    (h : (vout_display_opengl_New cfg env fmt gl).1 = some vgl) :
    (vout_display_opengl_New cfg env fmt gl).2.1 = negotiatedFormat cfg fmt ∧
    vgl.fmt = negotiatedFormat cfg fmt ∧
    vgl.chroma = env.vlc_fourcc_GetChromaDescription (negotiatedFormat cfg fmt).i_chroma ∧
    vgl.tex_width = textureSize (supports_npot cfg env) fmt.i_width ∧
    vgl.tex_height = textureSize (supports_npot cfg env) fmt.i_height ∧
    vgl.pool = 0 := by
  unfold vout_display_opengl_New at h ⊢
  by_cases hc : env.calloc_ok = false
  · simp [hc] at h
  · by_cases hl : env.lock_ok = false
    · simp [hc, hl] at h
    · simp only [if_neg hc, if_neg hl, Option.some.injEq] at h ⊢
      subst h
      simp [negotiatedFormat_width, negotiatedFormat_height]

/-! ## C1: powers of two are left unchanged -/

theorem GetAlignedSize_idempotent (d : Nat) (h : d ≤ 2 ^ 30) :
    GetAlignedSize (toUnsigned (GetAlignedSize d)) = GetAlignedSize d := by
  have key : ∀ j : Nat, j ≤ 30 → GetAlignedSize d = ((2 ^ j : Nat) : Int) →
      GetAlignedSize (toUnsigned (GetAlignedSize d)) = GetAlignedSize d := by
    intro j hj e
    have hlt : 2 ^ j < 2 ^ 32 := Nat.pow_lt_pow_right (by norm_num) (by omega)
    rw [e, toUnsigned_natCast _ hlt, GetAlignedSize_pow j hj]
  rcases Nat.eq_zero_or_pos d with h0 | h0
  · subst h0; decide
  · rcases Nat.eq_or_lt_of_le h with h30 | h30
    · exact key 30 (le_refl _) (by rw [h30]; exact GetAlignedSize_pow 30 (le_refl _))
    · obtain ⟨k, hlo, hhi⟩ := exists_bits d h0
      have hk : k < 30 := bits_le k d 30 hlo h30
      have hv := GetAlignedSize_of_bits k d hlo hhi (by omega)
      by_cases hd : d = 2 ^ k
      · rw [if_pos hd] at hv
        exact key k (by omega) (by rw [hv, hd])
      · rw [if_neg hd] at hv
        exact key (k + 1) (by omega) hv

/-- C1, as stated, fails: `2^31` is an unsigned 32-bit power of two, and
`GetAlignedSize` does not return it. The shift count is `32` there, and no `int`
equals `2^31` whatever the shift yields; the result is not the bit pattern of
`2^31` either. -/
theorem GetAlignedSize_pow31_counterexample :
    (∃ k : Nat, (2147483648 : Nat) = 2 ^ k) ∧ (2147483648 : Nat) < 2 ^ 32 ∧
    GetAlignedSize 2147483648 ≠ ((2147483648 : Nat) : Int) ∧
    toUnsigned (GetAlignedSize 2147483648) ≠ 2147483648 :=
  ⟨⟨31, by norm_num⟩, by norm_num, by decide, by decide⟩

/-- C1, amended: for every power of two `d` up to `2^30`, `GetAlignedSize d`
is `d`, rounding the result again changes nothing, and when non-power-of-two
textures are unsupported `vout_display_opengl_New` sets the texture width
(height) to a source width (height) equal to `d`. -/
theorem GetAlignedSize_power_of_two (d : Nat) (hd : ∃ k : Nat, d = 2 ^ k)
    (hle : d ≤ 2 ^ 30) :
    GetAlignedSize d = (d : Int) ∧
    GetAlignedSize (toUnsigned (GetAlignedSize d)) = GetAlignedSize d ∧
    ∀ (cfg : BuildConfig) (env : NewEnv) (fmt : video_format_t) (gl : Nat)
      (vgl : vout_display_opengl_t),
      supports_npot cfg env = false →
      (vout_display_opengl_New cfg env fmt gl).1 = some vgl →
      (fmt.i_width = d → vgl.tex_width = (d : Int)) ∧
      (fmt.i_height = d → vgl.tex_height = (d : Int)) := by
  obtain ⟨k, rfl⟩ := hd
  have hk : k ≤ 30 := by
    by_contra hc
    have : 2 ^ 31 ≤ 2 ^ k := Nat.pow_le_pow_right (by norm_num) (by omega)
    omega
  have h1 := GetAlignedSize_pow k hk
  refine ⟨h1, ?_, ?_⟩
  · rw [h1, toUnsigned_natCast _ (by omega), h1]
  · intro cfg env fmt gl vgl hn hv
    obtain ⟨_, _, _, hw, hh, _⟩ := New_state cfg env fmt gl vgl hv
    rw [hn] at hw hh
    constructor
    · intro e
      rw [hw, e]
      simpa [textureSize] using h1
    · intro e
      rw [hh, e]
      simpa [textureSize] using h1

/-- C1, amended, at `d = 1024` on the generic build without the
non-power-of-two extensions. -/
theorem GetAlignedSize_power_of_two_witness :
    GetAlignedSize 1024 = 1024 ∧
    GetAlignedSize (toUnsigned (GetAlignedSize 1024)) = GetAlignedSize 1024 ∧
    (vout_display_opengl_New genericConfig plainEnv (sampleFormat 1024 1024) 1).1
      = some squareState ∧
    squareState.tex_width = 1024 :=
  have h := GetAlignedSize_power_of_two 1024 ⟨10, by norm_num⟩ (by norm_num)
  ⟨h.1, h.2.1, by decide,
    (h.2.2 genericConfig plainEnv (sampleFormat 1024 1024) 1 squareState
      (by decide) (by decide)).1 rfl⟩

/-! ## C2: other dimensions are rounded up to the next power of two -/

/-- C2, as stated, fails at `2^30 + 1`, which is not a power of two: the next
power of two, `2^31`, comes back through the `int` result as `-2^31`. It also
fails at `0`, where no `p` with `0 < p < 0` exists, and at `2^31 + 1`, above
which no power of two fits in 32 bits. -/
theorem GetAlignedSize_round_counterexample :
    (¬ ∃ k : Nat, (1073741825 : Nat) = 2 ^ k) ∧ (1073741825 : Nat) < 2 ^ 32 ∧
    GetAlignedSize 1073741825 = -2147483648 ∧
    (¬ ∃ k : Nat, GetAlignedSize 1073741825 = ((2 ^ k : Nat) : Int) ∧
        1073741825 < 2 ^ k ∧ 2 ^ k < 2 * 1073741825) ∧
    (¬ ∃ k : Nat, (0 : Nat) = 2 ^ k) ∧
    (¬ ∃ k : Nat, GetAlignedSize 0 = ((2 ^ k : Nat) : Int) ∧ 0 < 2 ^ k ∧ 2 ^ k < 2 * 0) ∧
    GetAlignedSize 2147483649 < 2147483649 ∧
    toUnsigned (GetAlignedSize 2147483649) < 2147483649 := by
  refine ⟨?_, by norm_num, by decide, ?_, ?_, ?_, by decide, by decide⟩
  · rintro ⟨k, hk⟩
    rcases Nat.lt_or_ge k 31 with h | h
    · have h1 : 2 ^ k ≤ 2 ^ 30 := Nat.pow_le_pow_right (by norm_num) (by omega)
      omega
    · have h1 : 2 ^ 31 ≤ 2 ^ k := Nat.pow_le_pow_right (by norm_num) h
      omega
  · rintro ⟨k, hk, _, _⟩
    have h1 : GetAlignedSize 1073741825 = -2147483648 := by decide
    rw [h1] at hk
    have h2 : (0 : Int) ≤ ((2 ^ k : Nat) : Int) := Int.natCast_nonneg _
    omega
  · rintro ⟨k, hk⟩
    have : 0 < 2 ^ k := Nat.pos_pow_of_pos k (by norm_num)
    omega
  · rintro ⟨k, _, _, h⟩
    omega

/-- C2, amended: for every `d` with `0 < d < 2^30` that is not a power of two,
`GetAlignedSize d` is a power of two `p` with `d < p < 2 * d`; `p` is the only
power of two in that range, and the smallest power of two that is at least
`d`. -/
theorem GetAlignedSize_round_up (d : Nat) (h0 : 0 < d) (hlt : d < 2 ^ 30)
    (hnp : ¬ ∃ k : Nat, d = 2 ^ k) :
    ∃ k : Nat, GetAlignedSize d = ((2 ^ k : Nat) : Int) ∧ d < 2 ^ k ∧ 2 ^ k < 2 * d ∧
      (∀ j : Nat, d < 2 ^ j → 2 ^ j < 2 * d → j = k) ∧
      (∀ j : Nat, d ≤ 2 ^ j → 2 ^ k ≤ 2 ^ j) := by
  obtain ⟨k, hlo, hhi⟩ := exists_bits d h0
  have hk : k < 30 := bits_le k d 30 hlo hlt
  have hne : d ≠ 2 ^ k := fun e => hnp ⟨k, e⟩
  have hsucc : 2 ^ (k + 1) = 2 * 2 ^ k := by rw [pow_succ]; ring
  refine ⟨k + 1, ?_, hhi, by omega, ?_, ?_⟩
  · rw [GetAlignedSize_of_bits k d hlo hhi (by omega), if_neg hne]
  · intro j hj1 hj2
    have h1 : k < j := by
      by_contra hc
      have : 2 ^ j ≤ 2 ^ k := Nat.pow_le_pow_right (by norm_num) (by omega)
      omega
    have h2 : j < k + 2 := by
      by_contra hc
      have h3 : 2 ^ (k + 2) ≤ 2 ^ j := Nat.pow_le_pow_right (by norm_num) (by omega)
      have h4 : 2 ^ (k + 2) = 4 * 2 ^ k := by rw [pow_add]; ring
      omega
    omega
  · intro j hj
    have h1 : k < j := by
      by_contra hc
      have : 2 ^ j ≤ 2 ^ k := Nat.pow_le_pow_right (by norm_num) (by omega)
      omega
    exact Nat.pow_le_pow_right (by norm_num) (by omega)

/-- C2, amended, at `d = 640`: the result is `1024 = 2^10`. -/
theorem GetAlignedSize_round_up_witness :
    ∃ k : Nat, GetAlignedSize 640 = ((2 ^ k : Nat) : Int) ∧ 640 < 2 ^ k ∧ 2 ^ k < 2 * 640 ∧
      (∀ j : Nat, 640 < 2 ^ j → 2 ^ j < 2 * 640 → j = k) ∧
      (∀ j : Nat, 640 ≤ 2 ^ j → 2 ^ k ≤ 2 ^ j) :=
  GetAlignedSize_round_up 640 (by norm_num) (by norm_num) (by
    rintro ⟨k, hk⟩
    rcases Nat.lt_or_ge k 10 with h | h
    · have h1 : 2 ^ k ≤ 2 ^ 9 := Nat.pow_le_pow_right (by norm_num) (by omega)
      omega
    · have h1 : 2 ^ 10 ≤ 2 ^ k := Nat.pow_le_pow_right (by norm_num) h
      omega)

/-! ## C3: the texture is at least as large as the source -/

theorem textureSize_ge (npot : Bool) (d : Nat) (h : d ≤ maxDimension npot) :
    (d : Int) ≤ textureSize npot d ∧ (npot = true → textureSize npot d = (d : Int)) := by
  cases npot with
  | true =>
    have h1 : d < 2 ^ 31 := by simp [maxDimension] at h; omega
    simp [textureSize, toInt_of_lt d h1]
  | false =>
    have h1 : d ≤ 2 ^ 30 := by simpa [maxDimension] using h
    simpa [textureSize] using GetAlignedSize_ge d h1

/-- C3, as stated, fails: with non-power-of-two textures supported a source
width of `2^31` is copied into the `int` texture width as `-2^31`, and without
them a source width of `2^30 + 1` is rounded to `2^31`, stored as `-2^31`;
both are below the width written back to the caller. Without them a source
width of `2^31 + 1` has no power of two above it on 32 bits: the texture width
is below it even when read as an unsigned pattern. -/
theorem New_texture_size_counterexample :
    (∃ vgl : vout_display_opengl_t,
      (vout_display_opengl_New genericConfig npotEnv (sampleFormat 2147483648 480) 1).1
        = some vgl ∧
      supports_npot genericConfig npotEnv = true ∧
      vgl.tex_width = -2147483648 ∧
      (vout_display_opengl_New genericConfig npotEnv
        (sampleFormat 2147483648 480) 1).2.1.i_width = 2147483648) ∧
    (∃ vgl : vout_display_opengl_t,
      (vout_display_opengl_New genericConfig plainEnv (sampleFormat 1073741825 480) 1).1
        = some vgl ∧
      supports_npot genericConfig plainEnv = false ∧
      vgl.tex_width = -2147483648 ∧
      (vout_display_opengl_New genericConfig plainEnv
        (sampleFormat 1073741825 480) 1).2.1.i_width = 1073741825) ∧
    (∃ vgl : vout_display_opengl_t,
      (vout_display_opengl_New genericConfig plainEnv (sampleFormat 2147483649 480) 1).1
        = some vgl ∧
      vgl.tex_width < 2147483649 ∧ toUnsigned vgl.tex_width < 2147483649 ∧
      (vout_display_opengl_New genericConfig plainEnv
        (sampleFormat 2147483649 480) 1).2.1.i_width = 2147483649) :=
  ⟨⟨_, rfl, by decide, by decide, by decide⟩, ⟨_, rfl, by decide, by decide, by decide⟩,
   ⟨_, rfl, by decide, by decide, by decide⟩⟩

/-- C3, amended: for every requested format whose width and height the `int`
texture size represents (below `2^31` when non-power-of-two textures are
supported, at most `2^30` otherwise), the state a successful
`vout_display_opengl_New` returns has a texture width and height at least the
width and height written back to the caller, and equal to them when
non-power-of-two textures are supported. -/
theorem New_texture_size (cfg : BuildConfig) (env : NewEnv) (fmt : video_format_t)
    (gl : Nat) (vgl : vout_display_opengl_t)
    (h : (vout_display_opengl_New cfg env fmt gl).1 = some vgl)
    (hw : fmt.i_width ≤ maxDimension (supports_npot cfg env))
    (hh : fmt.i_height ≤ maxDimension (supports_npot cfg env)) :
    (((vout_display_opengl_New cfg env fmt gl).2.1.i_width : Nat) : Int) ≤ vgl.tex_width ∧
    (((vout_display_opengl_New cfg env fmt gl).2.1.i_height : Nat) : Int) ≤ vgl.tex_height ∧
    (supports_npot cfg env = true →
      vgl.tex_width = (((vout_display_opengl_New cfg env fmt gl).2.1.i_width : Nat) : Int) ∧
      vgl.tex_height = (((vout_display_opengl_New cfg env fmt gl).2.1.i_height : Nat) : Int)) := by
  obtain ⟨hout, _, _, htw, hth, _⟩ := New_state cfg env fmt gl vgl h
  rw [hout, negotiatedFormat_width, negotiatedFormat_height, htw, hth]
  have h1 := textureSize_ge _ _ hw
  have h2 := textureSize_ge _ _ hh
  exact ⟨h1.1, h2.1, fun hn => ⟨h1.2 hn, h2.2 hn⟩⟩

/-- C3, amended, on the generic build for a 640 by 480 source: the texture is
1024 by 512. -/
theorem New_texture_size_witness :
    (vout_display_opengl_New genericConfig plainEnv (sampleFormat 640 480) 1).1
      = some sampleState ∧
    (((vout_display_opengl_New genericConfig plainEnv
        (sampleFormat 640 480) 1).2.1.i_width : Nat) : Int) ≤ sampleState.tex_width ∧
    (((vout_display_opengl_New genericConfig plainEnv
        (sampleFormat 640 480) 1).2.1.i_height : Nat) : Int) ≤ sampleState.tex_height :=
  have h := New_texture_size genericConfig plainEnv (sampleFormat 640 480) 1 sampleState
    (by decide) (by decide) (by decide)
  ⟨by decide, h.1, h.2.1⟩

/-! ## Traces -/

theorem lockDiscipline_neutral_append (l rest : List Event)
    (h : ∀ e ∈ l, Event.isNeutral e = true) (held : Bool) :
    lockDiscipline held (l ++ rest) = lockDiscipline held rest := by
  induction l with
  | nil => rfl
  | cons e t ih =>
    have he := h e (List.mem_cons_self e t)
    have ht := ih (fun x hx => h x (List.mem_cons_of_mem e hx))
    cases e <;> simp_all [lockDiscipline, Event.isNeutral, Event.isGPU]

theorem lockDiscipline_gl_append (l : List GLCall) (rest : List Event) :
    lockDiscipline true (l.map Event.gl ++ rest) = lockDiscipline true rest := by
  induction l with
  | nil => rfl
  | cons e t ih => simpa [lockDiscipline, Event.isGPU] using ih

theorem countP_neutral (p : Event → Bool) (l : List Event)
    (hp : ∀ e, Event.isNeutral e = true → p e = false)
    (h : ∀ e ∈ l, Event.isNeutral e = true) : l.countP p = 0 := by
  rw [List.countP_eq_zero]
  intro e he
  simp [hp e (h e he)]

theorem countP_gl (p : Event → Bool) (l : List GLCall)
    (hp : ∀ c, p (Event.gl c) = false) : (l.map Event.gl).countP p = 0 := by
  rw [List.countP_eq_zero]
  intro e he
  obtain ⟨c, _, rfl⟩ := List.mem_map.mp he
  simp [hp c]

theorem glCalls_append (l r : List Event) : glCalls (l ++ r) = glCalls l ++ glCalls r := by
  induction l with
  | nil => rfl
  | cons e t ih => cases e <;> simp [glCalls, ih]

theorem glCalls_neutral (l : List Event) (h : ∀ e ∈ l, Event.isNeutral e = true) :
    glCalls l = [] := by
  induction l with
  | nil => rfl
  | cons e t ih =>
    have he := h e (List.mem_cons_self e t)
    have ht := ih (fun x hx => h x (List.mem_cons_of_mem e hx))
    cases e <;> simp_all [glCalls, Event.isNeutral]

theorem allocLoop_all_neutral (cfg : BuildConfig) (env : PoolEnv) :
    ∀ (fuel i : Nat) (vgl : vout_display_opengl_t) (picture : List Nat),
      (allocLoop cfg env fuel i vgl picture).2.2.2.all Event.isNeutral = true := by
  intro fuel
  induction fuel with
  | zero => intro i vgl picture; rfl
  | succ fuel ih =>
    intro i vgl picture
    simp only [allocLoop]
    split_ifs <;> simp [Event.isNeutral, ih]

theorem allocLoop_neutral (cfg : BuildConfig) (env : PoolEnv) (fuel i : Nat)
    (vgl : vout_display_opengl_t) (picture : List Nat) :
    ∀ e ∈ (allocLoop cfg env fuel i vgl picture).2.2.2, Event.isNeutral e = true := by
  have h := allocLoop_all_neutral cfg env fuel i vgl picture
  rw [List.all_eq_true] at h
  exact h

theorem poolError_neutral (i : Nat) (vgl : vout_display_opengl_t) (picture : List Nat) :
    ∀ e ∈ (poolError i vgl picture).2, Event.isNeutral e = true := by
  intro e he
  simp only [poolError, List.mem_map] at he
  obtain ⟨j, _, rfl⟩ := he
  rfl

/-! ## C4: a failed pool creation -/

/-- C4 fails on the code. On the generic build (one texture unit), from a
state without a pool, `vlc_memalign` and `picture_NewFromResource` succeed and
`picture_pool_NewExtended` returns `NULL`: `vout_display_opengl_GetPool` returns
`NULL`, the picture is deleted, but the staging buffer is never freed (one
successful allocation, no `free`) and `buffer_base[0]` still holds its address.
On the dual-buffering build, when the second `vlc_memalign` fails the buffer of
the first unit is lost the same way. -/
theorem GetPool_failure_keeps_buffer :
    sampleState.pool = 0 ∧
    (vout_display_opengl_GetPool genericConfig noPool sampleState).1 = 0 ∧
    (vout_display_opengl_GetPool genericConfig noPool sampleState).2.2 =
      [Event.vlc_memalign 4096 4096 2097152,
       Event.picture_NewFromResource
         { p_sys := none, p0 := { p_pixels := 4096, i_lines := 480, i_pitch := 2560 } } 1,
       Event.picture_pool_NewExtended 1 [1] false 0,
       Event.picture_Delete 1] ∧
    (vout_display_opengl_GetPool genericConfig noPool sampleState).2.2.countP
      Event.isBufferAlloc = 1 ∧
    (vout_display_opengl_GetPool genericConfig noPool sampleState).2.2.countP
      Event.isBufferFree = 0 ∧
    (vout_display_opengl_GetPool genericConfig noPool sampleState).2.2.countP
      Event.isPictureNew = 1 ∧
    (vout_display_opengl_GetPool genericConfig noPool sampleState).2.2.countP
      Event.isPictureDelete = 1 ∧
    (vout_display_opengl_GetPool genericConfig noPool sampleState).2.1.pool = 0 ∧
    (vout_display_opengl_GetPool genericConfig noPool sampleState).2.1.buffer = [0] ∧
    (vout_display_opengl_GetPool genericConfig noPool sampleState).2.1.buffer_base = [4096] ∧
    (vout_display_opengl_GetPool macosConfig secondAllocFails macosState).1 = 0 ∧
    (vout_display_opengl_GetPool macosConfig secondAllocFails macosState).2.2.countP
      Event.isBufferAlloc = 1 ∧
    (vout_display_opengl_GetPool macosConfig secondAllocFails macosState).2.2.countP
      Event.isBufferFree = 0 ∧
    (vout_display_opengl_GetPool macosConfig secondAllocFails macosState).2.1.buffer_base
      = [4096, 0] := by
  refine ⟨?_, ?_, ?_, ?_, ?_, ?_, ?_, ?_, ?_, ?_, ?_, ?_, ?_, ?_⟩ <;> decide

/-! ## C5: asking for the pool again -/

theorem GetPool_of_pool (cfg : BuildConfig) (env : PoolEnv) (vgl : vout_display_opengl_t)
    (h : vgl.pool ≠ 0) : vout_display_opengl_GetPool cfg env vgl = (vgl.pool, vgl, []) := by
  simp only [vout_display_opengl_GetPool, if_pos h]

theorem GetPool_pool (cfg : BuildConfig) (env : PoolEnv) (vgl : vout_display_opengl_t)
    (h : (vout_display_opengl_GetPool cfg env vgl).1 ≠ 0) :
    (vout_display_opengl_GetPool cfg env vgl).2.1.pool =
      (vout_display_opengl_GetPool cfg env vgl).1 := by
  by_cases h0 : vgl.pool ≠ 0
  · simp only [vout_display_opengl_GetPool, if_pos h0]
  · by_cases h1 : (allocLoop cfg env (VLCGL_TEXTURE_COUNT cfg) 0 vgl []).1
        < VLCGL_TEXTURE_COUNT cfg
    · simp [vout_display_opengl_GetPool, h0, h1] at h
    · by_cases h2 : env.picture_pool_NewExtended = 0
      · simp [vout_display_opengl_GetPool, h0, h1, h2] at h
      · by_cases h3 : env.lock_ok = false
        · simp [vout_display_opengl_GetPool, h0, h1, h2, h3]
        · simp [vout_display_opengl_GetPool, h0, h1, h2, h3]

/-- C5: when `vout_display_opengl_GetPool` has returned a pool, a second call
on the state it left returns the same pool, leaves the state as it is, and makes
no call at all (no allocation, no picture, no lock, no GL call), whatever the
collaborators would answer. -/
theorem GetPool_idempotent (cfg : BuildConfig) (env1 env2 : PoolEnv)
    (vgl : vout_display_opengl_t)
    (h : (vout_display_opengl_GetPool cfg env1 vgl).1 ≠ 0) :
    vout_display_opengl_GetPool cfg env2 (vout_display_opengl_GetPool cfg env1 vgl).2.1 =
      ((vout_display_opengl_GetPool cfg env1 vgl).1,
       (vout_display_opengl_GetPool cfg env1 vgl).2.1, []) := by
  have hp := GetPool_pool cfg env1 vgl h
  have hne : (vout_display_opengl_GetPool cfg env1 vgl).2.1.pool ≠ 0 := by rw [hp]; exact h
  generalize (vout_display_opengl_GetPool cfg env1 vgl).2.1 = s at hp hne
  rw [GetPool_of_pool cfg env2 s hne, hp]

/-- C5 on the sample state: the first call returns the pool `77`, the second
call returns `77` again with no call made. -/
theorem GetPool_idempotent_witness :
    (vout_display_opengl_GetPool genericConfig goodPool sampleState).1 = 77 ∧
    vout_display_opengl_GetPool genericConfig noPool
        (vout_display_opengl_GetPool genericConfig goodPool sampleState).2.1 =
      ((vout_display_opengl_GetPool genericConfig goodPool sampleState).1,
       (vout_display_opengl_GetPool genericConfig goodPool sampleState).2.1, []) :=
  ⟨by decide, GetPool_idempotent genericConfig goodPool noPool sampleState (by decide)⟩

/-! ## C6: what `Prepare` transfers -/

/-- C6, as stated, fails: on the generic build a call to
`vout_display_opengl_Prepare` whose `vlc_gl_Lock` fails returns `VLC_EGENERIC`
and issues no `glTexSubImage2D` at all. -/
theorem Prepare_transfer_counterexample :
    genericConfig.USE_OPENGL_ES = GLESVersion.undefined ∧
    MACOS_OPENGL genericConfig = false ∧
    vout_display_opengl_Prepare genericConfig false sampleState samplePicture =
      (some vlc_status.VLC_EGENERIC, [Event.vlc_gl_Lock false]) ∧
    (vout_display_opengl_Prepare genericConfig false sampleState samplePicture).2.countP
      Event.isTexSubImage2D = 0 := by
  refine ⟨?_, ?_, ?_, ?_⟩ <;> decide

/-- C6, amended: outside `MACOS_OPENGL`, a call to
`vout_display_opengl_Prepare` whose context acquisition succeeds returns
`VLC_SUCCESS` and its only GL call is one `glTexSubImage2D`; when the
acquisition fails it returns `VLC_EGENERIC` and makes no GL call. Under
`MACOS_OPENGL` a call issues no `glTexSubImage2D` and no `glTexImage2D`: its
only GL call is one `glBindTexture` of the frame's texture, made when the
acquisition succeeds and the frame carries its `p_sys`. -/
theorem Prepare_transfer (cfg : BuildConfig) (lock_ok : Bool)
    (vgl : vout_display_opengl_t) (picture : picture_t) :
    (MACOS_OPENGL cfg = false →
      (vout_display_opengl_Prepare cfg lock_ok vgl picture).1 =
        some (if lock_ok then vlc_status.VLC_SUCCESS else vlc_status.VLC_EGENERIC) ∧
      glCalls (vout_display_opengl_Prepare cfg lock_ok vgl picture).2 =
        (if lock_ok then
          [GLCall.glTexSubImage2D GLenum.GL_TEXTURE_2D (uploadWidth vgl picture)
            picture.p0.i_lines picture.p0.p_pixels]
         else []) ∧
      (vout_display_opengl_Prepare cfg lock_ok vgl picture).2.countP Event.isTexSubImage2D =
        (if lock_ok then 1 else 0)) ∧
    (MACOS_OPENGL cfg = true →
      (vout_display_opengl_Prepare cfg lock_ok vgl picture).2.countP Event.isTexSubImage2D = 0 ∧
      (vout_display_opengl_Prepare cfg lock_ok vgl picture).2.countP Event.isTexImage2D = 0 ∧
      glCalls (vout_display_opengl_Prepare cfg lock_ok vgl picture).2 =
        (if lock_ok then
          (match get_texture vgl picture with
            | some texture => [GLCall.glBindTexture vgl.tex_target texture]
            | none => [])
         else [])) := by
  constructor
  · intro hm
    cases lock_ok <;>
      simp [vout_display_opengl_Prepare, hm, glCalls, Event.isTexSubImage2D]
  · intro hm
    cases lock_ok
    · simp [vout_display_opengl_Prepare, glCalls, Event.isTexSubImage2D, Event.isTexImage2D]
    · cases hg : get_texture vgl picture <;>
        simp [vout_display_opengl_Prepare, hm, hg, glCalls, Event.isTexSubImage2D,
          Event.isTexImage2D]

/-- C6, amended, on the sample state: one transfer of the 640 by 480 frame on
the generic build, one bind and no transfer on the dual-buffering build. -/
theorem Prepare_transfer_witness :
    glCalls (vout_display_opengl_Prepare genericConfig true sampleState samplePicture).2 =
      [GLCall.glTexSubImage2D GLenum.GL_TEXTURE_2D 640 480 0] ∧
    (vout_display_opengl_Prepare macosConfig true macosState
      (pictureOfResource (frameResource macosConfig macosState 1 true))).2.countP
        Event.isTexSubImage2D = 0 :=
  ⟨((Prepare_transfer genericConfig true sampleState samplePicture).1 (by decide)).2.1,
   ((Prepare_transfer macosConfig true macosState
      (pictureOfResource (frameResource macosConfig macosState 1 true))).2 (by decide)).1⟩

/-! ## C8: the order of a teardown -/

/-- C8, as stated, fails: when `vlc_gl_Lock` fails in
`vout_display_opengl_Delete`, the textures are not deleted and the context is
not released; the pool is released and the buffers freed all the same. -/
theorem Delete_order_counterexample :
    pooledState.pool ≠ 0 ∧ pooledState.program = 0 ∧
    VLCGL_TEXTURE_COUNT genericConfig = 1 ∧
    kinds (vout_display_opengl_Delete genericConfig false pooledState) =
      [Kind.Acquire, Kind.PoolRelease, Kind.FreeBuffer] ∧
    kinds (vout_display_opengl_Delete genericConfig false pooledState) ≠
      [Kind.Acquire, Kind.DeleteTextures, Kind.Release, Kind.PoolRelease, Kind.FreeBuffer] := by
  refine ⟨?_, ?_, ?_, ?_, ?_⟩ <;> decide

theorem kinds_free_map (n : Nat) (f : Nat → Nat) :
    ((List.range n).map (fun i => Event.free (f i))).filterMap Event.kind =
      List.replicate n Kind.FreeBuffer := by
  induction n with
  | zero => rfl
  | succ n ih =>
    rw [List.range_succ, List.map_append, List.filterMap_append, ih, List.replicate_succ']
    rfl

/-- C8, amended: for every state that has a pool, the calls of
`vout_display_opengl_Delete` of the kinds Acquire, DeleteTextures,
DeleteProgram, Release, PoolRelease and FreeBuffer are, when the context
acquisition succeeds, Acquire, DeleteTextures, DeleteProgram (exactly when the
program handle is not zero), Release, PoolRelease, then one FreeBuffer per
texture unit; when the acquisition fails they are Acquire, PoolRelease, then one
FreeBuffer per texture unit. -/
theorem Delete_order (cfg : BuildConfig) (lock_ok : Bool) (vgl : vout_display_opengl_t)
    (h : vgl.pool ≠ 0) :
    kinds (vout_display_opengl_Delete cfg lock_ok vgl) =
      (if lock_ok then
        [Kind.Acquire, Kind.DeleteTextures]
          ++ (if vgl.program ≠ 0 then [Kind.DeleteProgram] else [])
          ++ [Kind.Release]
       else [Kind.Acquire])
      ++ Kind.PoolRelease :: List.replicate (VLCGL_TEXTURE_COUNT cfg) Kind.FreeBuffer := by
  have hf := kinds_free_map (VLCGL_TEXTURE_COUNT cfg) (fun i => vgl.buffer_base.getD i 0)
  unfold kinds vout_display_opengl_Delete
  rw [if_pos h]
  simp only [List.filterMap_append, List.filterMap_cons, hf]
  cases lock_ok
  · simp [Event.kind]
  · by_cases hp : vgl.program ≠ 0
    · simp [Event.kind, hp]
    · simp [Event.kind, hp]

/-- C8, amended, on the sample state with its pool, the context acquired. -/
theorem Delete_order_witness :
    kinds (vout_display_opengl_Delete genericConfig true pooledState) =
      [Kind.Acquire, Kind.DeleteTextures, Kind.Release, Kind.PoolRelease, Kind.FreeBuffer] :=
  Delete_order genericConfig true pooledState (by decide)

/-! ## The shape of the trace of `GetPool` -/

theorem neutral_append (l r : List Event) (hl : ∀ e ∈ l, Event.isNeutral e = true)
    (hr : ∀ e ∈ r, Event.isNeutral e = true) : ∀ e ∈ l ++ r, Event.isNeutral e = true := by
  intro e he
  rcases List.mem_append.mp he with h | h
  · exact hl e h
  · exact hr e h

theorem neutral_cons (a : Event) (l : List Event) (ha : Event.isNeutral a = true)
    (hl : ∀ e ∈ l, Event.isNeutral e = true) : ∀ e ∈ a :: l, Event.isNeutral e = true := by
  intro e he
  rcases List.mem_cons.mp he with h | h
  · subst h; exact ha
  · exact hl e h

theorem GetPool_shape (cfg : BuildConfig) (env : PoolEnv) (vgl : vout_display_opengl_t) :
    ∃ pre : List Event, (∀ e ∈ pre, Event.isNeutral e = true) ∧
      ((vout_display_opengl_GetPool cfg env vgl).2.2 = pre ∨
       (env.lock_ok = false ∧
        (vout_display_opengl_GetPool cfg env vgl).2.2 = pre ++ [Event.vlc_gl_Lock false] ∧
        (vout_display_opengl_GetPool cfg env vgl).1 = env.picture_pool_NewExtended ∧
        (vout_display_opengl_GetPool cfg env vgl).1 ≠ 0 ∧
        (vout_display_opengl_GetPool cfg env vgl).2.1.pool =
          (vout_display_opengl_GetPool cfg env vgl).1) ∨
       (env.lock_ok = true ∧ ∃ gls : List GLCall,
        (vout_display_opengl_GetPool cfg env vgl).2.2 =
          pre ++ Event.vlc_gl_Lock true :: (gls.map Event.gl ++ [Event.vlc_gl_Unlock]))) := by
  have ha := allocLoop_neutral cfg env (VLCGL_TEXTURE_COUNT cfg) 0 vgl []
  by_cases h0 : vgl.pool ≠ 0
  · exact ⟨[], by simp, Or.inl (by simp only [vout_display_opengl_GetPool, if_pos h0])⟩
  · by_cases h1 : (allocLoop cfg env (VLCGL_TEXTURE_COUNT cfg) 0 vgl []).1
        < VLCGL_TEXTURE_COUNT cfg
    · exact ⟨(vout_display_opengl_GetPool cfg env vgl).2.2,
        by
          simp only [vout_display_opengl_GetPool, if_neg h0, if_pos h1]
          exact neutral_append _ _ ha (poolError_neutral _ _ _),
        Or.inl rfl⟩
    · by_cases h2 : env.picture_pool_NewExtended = 0
      · exact ⟨(vout_display_opengl_GetPool cfg env vgl).2.2,
          by
            simp only [vout_display_opengl_GetPool, if_neg h0, if_neg h1, if_pos h2]
            exact neutral_append _ _ ha (neutral_cons _ _ rfl (poolError_neutral _ _ _)),
          Or.inl rfl⟩
      · have hpre : ∀ e ∈ (allocLoop cfg env (VLCGL_TEXTURE_COUNT cfg) 0 vgl []).2.2.2 ++
            [Event.picture_pool_NewExtended
              (allocLoop cfg env (VLCGL_TEXTURE_COUNT cfg) 0 vgl []).1
              (allocLoop cfg env (VLCGL_TEXTURE_COUNT cfg) 0 vgl []).2.2.1
              (MACOS_OPENGL cfg) env.picture_pool_NewExtended], Event.isNeutral e = true :=
          neutral_append _ _ ha (neutral_cons _ _ rfl (by simp))
        by_cases h3 : env.lock_ok = false
        · refine ⟨_, hpre, Or.inr (Or.inl ⟨h3, ?_⟩)⟩
          simp [vout_display_opengl_GetPool, h0, h1, h2, h3]
        · have h3t : env.lock_ok = true := by simpa using h3
          refine ⟨_, hpre, Or.inr (Or.inr ⟨h3t,
            (createTextures cfg env
              { (allocLoop cfg env (VLCGL_TEXTURE_COUNT cfg) 0 vgl []).2.1 with
                pool := env.picture_pool_NewExtended }).2, ?_⟩)⟩
          simp only [vout_display_opengl_GetPool, if_neg h0, if_neg h1, if_neg h2, if_neg h3]
          simp

/-! ## C7: a context acquisition that fails -/

/-- C7, as stated, fails for `vout_display_opengl_GetPool`: when `vlc_gl_Lock`
fails there (line 360), the call returns the pool it has just created, `77`
here, not `NULL`. -/
theorem GetPool_lock_failure_counterexample :
    sampleState.pool = 0 ∧ lostPool.lock_ok = false ∧
    (vout_display_opengl_GetPool genericConfig lostPool sampleState).1 = 77 ∧
    (vout_display_opengl_GetPool genericConfig lostPool sampleState).2.2 =
      [Event.vlc_memalign 4096 4096 2097152,
       Event.picture_NewFromResource
         { p_sys := none, p0 := { p_pixels := 4096, i_lines := 480, i_pitch := 2560 } } 1,
       Event.picture_pool_NewExtended 1 [1] false 77,
       Event.vlc_gl_Lock false] := by
  refine ⟨?_, ?_, ?_, ?_⟩ <;> decide

/-- C7, amended: when the context acquisition inside the call fails,
`vout_display_opengl_New` returns `NULL` and leaves the caller's format
untouched, `vout_display_opengl_Prepare` and `vout_display_opengl_Display`
return `VLC_EGENERIC`, and `vout_display_opengl_GetPool` returns the pool it has
just created and stored in the state (not `NULL`); each of them makes no GL call
and calls `vlc_gl_Lock` once. -/
theorem lock_failure (cfg : BuildConfig) :
    (∀ (env : NewEnv) (fmt : video_format_t) (gl : Nat),
      env.calloc_ok = true → env.lock_ok = false →
      vout_display_opengl_New cfg env fmt gl =
        (none, fmt, [Event.calloc true, Event.vlc_gl_Lock false, Event.free_vgl])) ∧
    (∀ (vgl : vout_display_opengl_t) (picture : picture_t),
      vout_display_opengl_Prepare cfg false vgl picture =
        (some vlc_status.VLC_EGENERIC, [Event.vlc_gl_Lock false])) ∧
    (∀ (vgl : vout_display_opengl_t) (source : video_format_t),
      vout_display_opengl_Display cfg false vgl source =
        (vlc_status.VLC_EGENERIC, [Event.vlc_gl_Lock false])) ∧
    (∀ (env : PoolEnv) (vgl : vout_display_opengl_t), env.lock_ok = false →
      glCalls (vout_display_opengl_GetPool cfg env vgl).2.2 = [] ∧
      (vout_display_opengl_GetPool cfg env vgl).2.2.countP Event.isLockAttempt ≤ 1 ∧
      ((vout_display_opengl_GetPool cfg env vgl).2.2.countP Event.isLockAttempt = 1 →
        (vout_display_opengl_GetPool cfg env vgl).1 = env.picture_pool_NewExtended ∧
        (vout_display_opengl_GetPool cfg env vgl).1 ≠ 0 ∧
        (vout_display_opengl_GetPool cfg env vgl).2.1.pool =
          (vout_display_opengl_GetPool cfg env vgl).1)) := by
  refine ⟨?_, ?_, ?_, ?_⟩
  · intro env fmt gl hc hl
    simp [vout_display_opengl_New, hc, hl]
  · intro vgl picture
    simp [vout_display_opengl_Prepare]
  · intro vgl source
    simp [vout_display_opengl_Display]
  · intro env vgl hl
    obtain ⟨pre, hpre, hshape⟩ := GetPool_shape cfg env vgl
    have hg : glCalls pre = [] := glCalls_neutral pre hpre
    have hc : pre.countP Event.isLockAttempt = 0 :=
      countP_neutral _ pre (by intro e he; cases e <;> simp_all [Event.isNeutral,
        Event.isLockAttempt]) hpre
    rcases hshape with h | ⟨_, h, h1, h2, h3⟩ | ⟨ht, _⟩
    · rw [h, hg, hc]
      simp
    · rw [h, glCalls_append, hg, List.countP_append, hc]
      exact ⟨by simp [glCalls], by simp [Event.isLockAttempt], fun _ => ⟨h1, h2, h3⟩⟩
    · rw [hl] at ht
      exact absurd ht (by simp)

/-- C7, amended, on the sample inputs: `New` with a context that cannot be
acquired, and `GetPool` with all allocations succeeding and the lock failing. -/
theorem lock_failure_witness :
    vout_display_opengl_New genericConfig lostEnv (sampleFormat 640 480) 1 =
      (none, sampleFormat 640 480,
        [Event.calloc true, Event.vlc_gl_Lock false, Event.free_vgl]) ∧
    (vout_display_opengl_GetPool genericConfig lostPool sampleState).2.2.countP
      Event.isLockAttempt = 1 ∧
    (vout_display_opengl_GetPool genericConfig lostPool sampleState).1 ≠ 0 :=
  ⟨(lock_failure genericConfig).1 lostEnv (sampleFormat 640 480) 1 (by decide) (by decide),
   by decide,
   (((lock_failure genericConfig).2.2.2 lostPool sampleState (by decide)).2.2
      (by decide)).2.1⟩

/-! ## C9: GL calls happen with the context held, and the context is released -/

theorem lockDiscipline_neutral (l : List Event) (h : ∀ e ∈ l, Event.isNeutral e = true)
    (held : Bool) : lockDiscipline held l = true := by
  have := lockDiscipline_neutral_append l [] h held
  rw [List.append_nil] at this
  rw [this]
  rfl

theorem neutral_not_release (e : Event) (h : Event.isNeutral e = true) :
    Event.isRelease e = false := by
  cases e <;> simp_all [Event.isNeutral, Event.isRelease]

theorem neutral_not_acquired (e : Event) (h : Event.isNeutral e = true) :
    Event.isAcquired e = false := by
  cases e <;> simp_all [Event.isNeutral, Event.isAcquired]

theorem New_bracketing (cfg : BuildConfig) (env : NewEnv) (fmt : video_format_t) (gl : Nat) :
    lockDiscipline false (vout_display_opengl_New cfg env fmt gl).2.2 = true ∧
    (vout_display_opengl_New cfg env fmt gl).2.2.countP Event.isRelease =
      (vout_display_opengl_New cfg env fmt gl).2.2.countP Event.isAcquired := by
  unfold vout_display_opengl_New
  by_cases hc : env.calloc_ok = false
  · simp only [if_pos hc]; exact ⟨rfl, rfl⟩
  · by_cases hl : env.lock_ok = false
    · simp only [if_neg hc, if_pos hl]; exact ⟨rfl, rfl⟩
    · simp only [if_neg hc, if_neg hl]
      cases env.has_GL_ARB_fragment_program <;> exact ⟨rfl, rfl⟩

theorem Delete_bracketing (cfg : BuildConfig) (lock_ok : Bool) (vgl : vout_display_opengl_t) :
    lockDiscipline false (vout_display_opengl_Delete cfg lock_ok vgl) = true ∧
    (vout_display_opengl_Delete cfg lock_ok vgl).countP Event.isRelease =
      (vout_display_opengl_Delete cfg lock_ok vgl).countP Event.isAcquired := by
  have hn : ∀ e ∈ (if vgl.pool ≠ 0 then
        Event.picture_pool_Delete vgl.pool ::
          (List.range (VLCGL_TEXTURE_COUNT cfg)).map
            (fun i => Event.free (vgl.buffer_base.getD i 0))
      else []) ++ [Event.free_vgl], Event.isNeutral e = true := by
    apply neutral_append
    · split_ifs
      · refine neutral_cons (Event.picture_pool_Delete vgl.pool) _ rfl ?_
        intro e he
        obtain ⟨i, _, rfl⟩ := List.mem_map.mp he
        rfl
      · simp
    · simp [Event.isNeutral]
  have hd := lockDiscipline_neutral _ hn false
  have hr := countP_neutral Event.isRelease _ neutral_not_release hn
  have ha := countP_neutral Event.isAcquired _ neutral_not_acquired hn
  unfold vout_display_opengl_Delete
  rw [List.append_assoc]
  cases lock_ok
  · simp only [Bool.false_eq_true, if_false, List.countP_append, hr, ha]
    exact ⟨by simpa [lockDiscipline] using hd, rfl⟩
  · by_cases hp : vgl.program ≠ 0
    · simp only [if_true, if_pos hp, List.countP_append, hr, ha]
      exact ⟨by simpa [lockDiscipline, Event.isGPU] using hd, rfl⟩
    · simp only [if_true, if_neg hp, List.countP_append, hr, ha]
      exact ⟨by simpa [lockDiscipline, Event.isGPU] using hd, rfl⟩

theorem GetPool_bracketing (cfg : BuildConfig) (env : PoolEnv) (vgl : vout_display_opengl_t) :
    lockDiscipline false (vout_display_opengl_GetPool cfg env vgl).2.2 = true ∧
    (vout_display_opengl_GetPool cfg env vgl).2.2.countP Event.isRelease =
      (vout_display_opengl_GetPool cfg env vgl).2.2.countP Event.isAcquired := by
  obtain ⟨pre, hpre, hshape⟩ := GetPool_shape cfg env vgl
  have hr := countP_neutral Event.isRelease pre neutral_not_release hpre
  have ha := countP_neutral Event.isAcquired pre neutral_not_acquired hpre
  rcases hshape with h | ⟨_, h, _⟩ | ⟨_, gls, h⟩
  · rw [h, hr, ha]
    exact ⟨lockDiscipline_neutral pre hpre false, rfl⟩
  · rw [h, lockDiscipline_neutral_append pre _ hpre, List.countP_append, List.countP_append,
      hr, ha]
    exact ⟨rfl, rfl⟩
  · rw [h, lockDiscipline_neutral_append pre _ hpre, List.countP_append, List.countP_append,
      hr, ha]
    constructor
    · simp only [lockDiscipline, Bool.not_false, Bool.true_and]
      rw [lockDiscipline_gl_append]
      rfl
    · simp only [List.countP_cons, List.countP_append, List.countP_nil,
        countP_gl Event.isRelease gls (fun _ => rfl),
        countP_gl Event.isAcquired gls (fun _ => rfl)]
      rfl

theorem Display_bracketing (cfg : BuildConfig) (lock_ok : Bool) (vgl : vout_display_opengl_t)
    (source : video_format_t) :
    lockDiscipline false (vout_display_opengl_Display cfg lock_ok vgl source).2 = true ∧
    (vout_display_opengl_Display cfg lock_ok vgl source).2.countP Event.isRelease =
      (vout_display_opengl_Display cfg lock_ok vgl source).2.countP Event.isAcquired := by
  unfold vout_display_opengl_Display
  cases lock_ok
  · exact ⟨rfl, rfl⟩
  · simp only [Bool.true_eq_false, if_false]
    split_ifs <;> exact ⟨rfl, rfl⟩

/-- C9: for each of the five public operations, whatever the state and
whatever the collaborators answer, every GL call and every buffer swap of the
call happens while the context is held (after a `vlc_gl_Lock` that succeeded and
before the `vlc_gl_Unlock` that follows it), and when the call returns there
are as many `vlc_gl_Unlock` as successful `vlc_gl_Lock`. Every call returns,
except `vout_display_opengl_Prepare` under `MACOS_OPENGL` on a picture without
`p_sys` once the context is acquired. -/
theorem context_bracketing (cfg : BuildConfig) :
    (∀ (env : NewEnv) (fmt : video_format_t) (gl : Nat),
      lockDiscipline false (vout_display_opengl_New cfg env fmt gl).2.2 = true ∧
      (vout_display_opengl_New cfg env fmt gl).2.2.countP Event.isRelease =
        (vout_display_opengl_New cfg env fmt gl).2.2.countP Event.isAcquired) ∧
    (∀ (lock_ok : Bool) (vgl : vout_display_opengl_t),
      lockDiscipline false (vout_display_opengl_Delete cfg lock_ok vgl) = true ∧
      (vout_display_opengl_Delete cfg lock_ok vgl).countP Event.isRelease =
        (vout_display_opengl_Delete cfg lock_ok vgl).countP Event.isAcquired) ∧
    (∀ (env : PoolEnv) (vgl : vout_display_opengl_t),
      lockDiscipline false (vout_display_opengl_GetPool cfg env vgl).2.2 = true ∧
      (vout_display_opengl_GetPool cfg env vgl).2.2.countP Event.isRelease =
        (vout_display_opengl_GetPool cfg env vgl).2.2.countP Event.isAcquired) ∧
    (∀ (lock_ok : Bool) (vgl : vout_display_opengl_t) (picture : picture_t),
      lockDiscipline false (vout_display_opengl_Prepare cfg lock_ok vgl picture).2 = true ∧
      ((vout_display_opengl_Prepare cfg lock_ok vgl picture).1 = none ↔
        (MACOS_OPENGL cfg = true ∧ lock_ok = true ∧ picture.p_sys = none)) ∧
      ((vout_display_opengl_Prepare cfg lock_ok vgl picture).1 ≠ none →
        (vout_display_opengl_Prepare cfg lock_ok vgl picture).2.countP Event.isRelease =
          (vout_display_opengl_Prepare cfg lock_ok vgl picture).2.countP Event.isAcquired)) ∧
    (∀ (lock_ok : Bool) (vgl : vout_display_opengl_t) (source : video_format_t),
      lockDiscipline false (vout_display_opengl_Display cfg lock_ok vgl source).2 = true ∧
      (vout_display_opengl_Display cfg lock_ok vgl source).2.countP Event.isRelease =
        (vout_display_opengl_Display cfg lock_ok vgl source).2.countP Event.isAcquired) := by
  refine ⟨New_bracketing cfg, Delete_bracketing cfg, GetPool_bracketing cfg, ?_,
    Display_bracketing cfg⟩
  intro lock_ok vgl picture
  unfold vout_display_opengl_Prepare get_texture
  cases lock_ok
  · simp [lockDiscipline, Event.isRelease, Event.isAcquired]
  · cases hm : MACOS_OPENGL cfg
    · simp [lockDiscipline, Event.isGPU, Event.isRelease, Event.isAcquired]
    · cases hs : picture.p_sys <;>
        simp [lockDiscipline, Event.isGPU, Event.isRelease, Event.isAcquired]

/-- C9 on the sample state: `Prepare` returns on the generic build, and its
trace has one unlock for its one successful lock. -/
theorem context_bracketing_witness :
    lockDiscipline false
      (vout_display_opengl_Prepare genericConfig true sampleState samplePicture).2 = true ∧
    (vout_display_opengl_Prepare genericConfig true sampleState samplePicture).2.countP
        Event.isRelease =
      (vout_display_opengl_Prepare genericConfig true sampleState samplePicture).2.countP
        Event.isAcquired ∧
    (vout_display_opengl_Prepare genericConfig true sampleState samplePicture).2.countP
        Event.isAcquired = 1 :=
  have h := (context_bracketing genericConfig).2.2.2.1 true sampleState samplePicture
  ⟨h.1, h.2.2 (by decide), by decide⟩

/-! ## C10: the staging buffer and the frame wrapped around it -/

theorem allocLoop_sized (cfg : BuildConfig) (env : PoolEnv) (size : Nat) (pitch lines : Int) :
    ∀ (fuel i : Nat) (vgl : vout_display_opengl_t) (picture : List Nat),
      stagingSize vgl = size →
      toInt (vgl.fmt.i_width * vgl.chroma.pixel_size) = pitch →
      toInt vgl.fmt.i_height = lines →
      (allocLoop cfg env fuel i vgl picture).2.2.2.all (Event.sizedAs size pitch lines) = true ∧
      (allocLoop cfg env fuel i vgl picture).2.1.fmt = vgl.fmt ∧
      (allocLoop cfg env fuel i vgl picture).2.1.chroma = vgl.chroma ∧
      (allocLoop cfg env fuel i vgl picture).2.1.tex_width = vgl.tex_width ∧
      (allocLoop cfg env fuel i vgl picture).2.1.tex_height = vgl.tex_height := by
  intro fuel
  induction fuel with
  | zero => intro i vgl picture _ _ _; exact ⟨rfl, rfl, rfl, rfl, rfl⟩
  | succ fuel ih =>
    intro i vgl picture h1 h2 h3
    have hrec := ih (i + 1)
      { vgl with buffer := vgl.buffer.set i (env.vlc_memalign i).2,
                 buffer_base := vgl.buffer_base.set i (env.vlc_memalign i).1 }
      (picture ++ [env.picture_NewFromResource i]) h1 h2 h3
    simp only [allocLoop]
    split_ifs
    all_goals
      simp only [List.all_cons, List.all_append, List.all_nil, Event.sizedAs, frameResource,
        h1, h2, h3, decide_True, Bool.and_true, Bool.and_self, hrec.1, hrec.2.1, hrec.2.2.1,
        hrec.2.2.2.1, hrec.2.2.2.2, and_self]

theorem toUnsigned_toInt (x : Nat) : toUnsigned (toInt x) = x % 2 ^ 32 := by
  have hlt : x % 2 ^ 32 < 2 ^ 32 := Nat.mod_lt _ (by norm_num)
  unfold toInt toUnsigned
  split_ifs with h
  · have h1 : (((x % 2 ^ 32 : Nat) : Int) % 2 ^ 32) = ((x % 2 ^ 32 : Nat) : Int) :=
      Int.emod_eq_of_lt (by omega) (by omega)
    rw [h1, Int.toNat_natCast]
  · have h1 : ((((x % 2 ^ 32 : Nat) : Int) - 2 ^ 32) % 2 ^ 32) = ((x % 2 ^ 32 : Nat) : Int) := by
      rw [Int.sub_emod, Int.emod_self, sub_zero, Int.emod_emod_of_dvd _ (dvd_refl _)]
      exact Int.emod_eq_of_lt (by omega) (by omega)
    rw [h1, Int.toNat_natCast]

theorem toInt_le (x : Nat) : toInt x ≤ (x : Int) := by
  have h1 : x % 2 ^ 32 ≤ x := Nat.mod_le _ _
  unfold toInt
  split_ifs <;> omega

theorem toInt_eq_self_iff (x : Nat) : toInt x = (x : Int) ↔ x < 2 ^ 31 := by
  constructor
  · intro h
    have h1 : x % 2 ^ 32 ≤ x := Nat.mod_le _ _
    unfold toInt at h
    split_ifs at h with hc <;> omega
  · exact toInt_of_lt x

theorem frame_fits (w h ps : Nat) (tw th : Int) (hw : (w : Int) ≤ tw) (hh : (h : Int) ≤ th)
    (hw31 : w < 2 ^ 31) (hh31 : h < 2 ^ 31) (hint : tw * th < 2 ^ 31)
    (hno : tw * th * (ps : Int) < 2 ^ 32) :
    (((toUnsigned (tw * th) * ps) % 2 ^ 32 : Nat) : Int) = tw * th * (ps : Int) ∧
    (toInt (w * ps) * toInt h = ((w * ps * h : Nat) : Int) ↔ (w * ps < 2 ^ 31 ∨ h = 0)) ∧
    toInt (w * ps) * toInt h ≤ (((toUnsigned (tw * th) * ps) % 2 ^ 32 : Nat) : Int) ∧
    w * ps * h ≤ (toUnsigned (tw * th) * ps) % 2 ^ 32 ∧
    0 ≤ toInt (toUnsigned (toInt (w * ps)) / ps) ∧
    toInt (toUnsigned (toInt (w * ps)) / ps) ≤ tw ∧
    0 ≤ toInt h ∧ toInt h ≤ th ∧
    toInt (toUnsigned (toInt (w * ps)) / ps) * toInt h * (ps : Int) ≤
      (((toUnsigned (tw * th) * ps) % 2 ^ 32 : Nat) : Int) := by
  obtain ⟨a, rfl⟩ := Int.eq_ofNat_of_zero_le (le_trans (Int.natCast_nonneg w) hw)
  obtain ⟨b, rfl⟩ := Int.eq_ofNat_of_zero_le (le_trans (Int.natCast_nonneg h) hh)
  have hwa : w ≤ a := by exact_mod_cast hw
  have hhb : h ≤ b := by exact_mod_cast hh
  have hint2 : a * b < 2 ^ 31 := by exact_mod_cast hint
  have hno2 : a * b * ps < 2 ^ 32 := by exact_mod_cast hno
  have hth : toInt h = (h : Int) := toInt_of_lt h hh31
  have hS : (toUnsigned ((a : Int) * (b : Int)) * ps) % 2 ^ 32 = a * b * ps := by
    have h2 : toUnsigned ((a : Int) * (b : Int)) = a * b := by
      have := toUnsigned_natCast (a * b) (by omega)
      simpa using this
    rw [h2, Nat.mod_eq_of_lt hno2]
  have hwh : w * h ≤ a * b := Nat.mul_le_mul hwa hhb
  have hpay : w * ps * h ≤ a * b * ps := by
    calc w * ps * h = w * h * ps := by ring
      _ ≤ a * b * ps := Nat.mul_le_mul_right ps hwh
  have hq : toUnsigned (toInt (w * ps)) / ps ≤ w := by
    rw [toUnsigned_toInt]
    rcases Nat.eq_zero_or_pos ps with hps | hps
    · subst hps; simp
    · calc (w * ps) % 2 ^ 32 / ps ≤ (w * ps) / ps := Nat.div_le_div_right (Nat.mod_le _ _)
        _ = w := Nat.mul_div_cancel w hps
  have hU : toInt (toUnsigned (toInt (w * ps)) / ps) =
      ((toUnsigned (toInt (w * ps)) / ps : Nat) : Int) :=
    toInt_of_lt _ (by omega)
  have hcast : ((w * ps * h : Nat) : Int) = ((w * ps : Nat) : Int) * (h : Int) := by
    push_cast
    ring
  have hP : toInt (w * ps) * (h : Int) = ((w * ps * h : Nat) : Int) ↔
      (w * ps < 2 ^ 31 ∨ h = 0) := by
    rw [hcast]
    constructor
    · intro e
      rcases Nat.eq_zero_or_pos h with hh0 | hh0
      · exact Or.inr hh0
      · have hpos : (h : Int) ≠ 0 := by exact_mod_cast hh0.ne'
        exact Or.inl ((toInt_eq_self_iff _).mp (mul_right_cancel₀ hpos e))
    · rintro (hlt | hz)
      · rw [toInt_of_lt _ hlt]
      · subst hz; simp
  have hle : toInt (w * ps) * (h : Int) ≤ ((a * b * ps : Nat) : Int) := by
    have h1 : toInt (w * ps) * (h : Int) ≤ ((w * ps : Nat) : Int) * (h : Int) :=
      mul_le_mul_of_nonneg_right (toInt_le _) (Int.natCast_nonneg h)
    have h2 : ((w * ps : Nat) : Int) * (h : Int) ≤ ((a * b * ps : Nat) : Int) := by
      rw [← hcast]
      exact_mod_cast hpay
    exact le_trans h1 h2
  rw [hS, hth, hU]
  refine ⟨by push_cast; ring, hP, hle, hpay, Int.natCast_nonneg _, ?_, Int.natCast_nonneg _,
    hh, ?_⟩
  · exact_mod_cast le_trans hq hwa
  · have h1 : toUnsigned (toInt (w * ps)) / ps * h * ps ≤ a * b * ps :=
      Nat.mul_le_mul_right ps (Nat.mul_le_mul (le_trans hq hwa) hhb)
    exact_mod_cast h1

theorem foldl_buffer_geometry (l : List Nat) :
    ∀ vgl : vout_display_opengl_t,
      (l.foldl (fun v j => { v with buffer := v.buffer.set j 0 }) vgl).fmt = vgl.fmt ∧
      (l.foldl (fun v j => { v with buffer := v.buffer.set j 0 }) vgl).chroma = vgl.chroma ∧
      (l.foldl (fun v j => { v with buffer := v.buffer.set j 0 }) vgl).tex_width
        = vgl.tex_width ∧
      (l.foldl (fun v j => { v with buffer := v.buffer.set j 0 }) vgl).tex_height
        = vgl.tex_height := by
  induction l with
  | nil => intro vgl; exact ⟨rfl, rfl, rfl, rfl⟩
  | cons a t ih =>
    intro vgl
    simp only [List.foldl_cons]
    exact ih _

theorem poolError_sized (i : Nat) (vgl : vout_display_opengl_t) (picture : List Nat)
    (size : Nat) (pitch lines : Int) :
    (poolError i vgl picture).2.all (Event.sizedAs size pitch lines) = true := by
  rw [List.all_eq_true]
  intro e he
  simp only [poolError, List.mem_map] at he
  obtain ⟨j, _, rfl⟩ := he
  rfl

theorem gl_sized (l : List GLCall) (size : Nat) (pitch lines : Int) :
    (l.map Event.gl).all (Event.sizedAs size pitch lines) = true := by
  rw [List.all_eq_true]
  intro e he
  obtain ⟨c, _, rfl⟩ := List.mem_map.mp he
  rfl

theorem poolError_geometry (i : Nat) (vgl : vout_display_opengl_t) (picture : List Nat) :
    (poolError i vgl picture).1.chroma = vgl.chroma ∧
    (poolError i vgl picture).1.tex_width = vgl.tex_width ∧
    (poolError i vgl picture).1.tex_height = vgl.tex_height :=
  (foldl_buffer_geometry (List.range i) vgl).2

theorem GetPool_sized (cfg : BuildConfig) (env : PoolEnv) (vgl : vout_display_opengl_t) :
    (vout_display_opengl_GetPool cfg env vgl).2.2.all
      (Event.sizedAs (stagingSize vgl) (toInt (vgl.fmt.i_width * vgl.chroma.pixel_size))
        (toInt vgl.fmt.i_height)) = true ∧
    (vout_display_opengl_GetPool cfg env vgl).2.1.chroma = vgl.chroma ∧
    (vout_display_opengl_GetPool cfg env vgl).2.1.tex_width = vgl.tex_width ∧
    (vout_display_opengl_GetPool cfg env vgl).2.1.tex_height = vgl.tex_height := by
  obtain ⟨ha, _, hc, htw, hth⟩ := allocLoop_sized cfg env (stagingSize vgl)
    (toInt (vgl.fmt.i_width * vgl.chroma.pixel_size)) (toInt vgl.fmt.i_height)
    (VLCGL_TEXTURE_COUNT cfg) 0 vgl [] rfl rfl rfl
  by_cases h0 : vgl.pool ≠ 0
  · rw [GetPool_of_pool cfg env vgl h0]
    exact ⟨rfl, rfl, rfl, rfl⟩
  · by_cases h1 : (allocLoop cfg env (VLCGL_TEXTURE_COUNT cfg) 0 vgl []).1
        < VLCGL_TEXTURE_COUNT cfg
    · simp only [vout_display_opengl_GetPool, if_neg h0, if_pos h1]
      obtain ⟨g2, g3, g4⟩ := poolError_geometry
        (allocLoop cfg env (VLCGL_TEXTURE_COUNT cfg) 0 vgl []).1
        (allocLoop cfg env (VLCGL_TEXTURE_COUNT cfg) 0 vgl []).2.1
        (allocLoop cfg env (VLCGL_TEXTURE_COUNT cfg) 0 vgl []).2.2.1
      refine ⟨?_, g2.trans hc, g3.trans htw, g4.trans hth⟩
      rw [List.all_append, ha, poolError_sized]
      rfl
    · by_cases h2 : env.picture_pool_NewExtended = 0
      · simp only [vout_display_opengl_GetPool, if_neg h0, if_neg h1, if_pos h2]
        obtain ⟨g2, g3, g4⟩ := poolError_geometry
          (allocLoop cfg env (VLCGL_TEXTURE_COUNT cfg) 0 vgl []).1
          { (allocLoop cfg env (VLCGL_TEXTURE_COUNT cfg) 0 vgl []).2.1 with
            pool := env.picture_pool_NewExtended }
          (allocLoop cfg env (VLCGL_TEXTURE_COUNT cfg) 0 vgl []).2.2.1
        refine ⟨?_, g2.trans hc, g3.trans htw, g4.trans hth⟩
        rw [List.all_append, ha, List.all_cons, poolError_sized]
        rfl
      · by_cases h3 : env.lock_ok = false
        · simp only [vout_display_opengl_GetPool, if_neg h0, if_neg h1, if_neg h2, if_pos h3]
          refine ⟨?_, hc, htw, hth⟩
          rw [List.all_append, ha]
          rfl
        · simp only [vout_display_opengl_GetPool, if_neg h0, if_neg h1, if_neg h2, if_neg h3]
          refine ⟨?_, hc, htw, hth⟩
          rw [List.all_append, List.all_append, List.all_append, ha, gl_sized]
          rfl

/-- C10, as stated, fails in two ways. For a source of 4294967295 by
4294967295 with non-power-of-two textures supported, both `int` texture
dimensions are `-1`, so `tex_width * tex_height * pixel_size` is `4` and does not
overflow; the staging buffer is 4 bytes, the frame wrapped around it has a pitch
of `-4` and `-1` lines, the payload `i_width * pixel_size * i_height` is far
above 4 bytes, and the width `Prepare` uploads, 1073741823 pixels, exceeds the
texture width. For a source of 600000000 by 1 with non-power-of-two textures
supported, the product is 2400000000 and overflows neither the `int` product
of the dimensions nor the `unsigned` size, but the `int` pitch is `-1894967296`,
so `i_pitch * i_lines` is not `i_width * pixel_size * i_height`. -/
theorem staging_buffer_counterexample :
    ((vout_display_opengl_New genericConfig npotEnv
      (sampleFormat 4294967295 4294967295) 1).1 = some hugeState ∧
    hugeState.tex_width = -1 ∧ hugeState.tex_height = -1 ∧
    hugeState.tex_width * hugeState.tex_height * (hugeState.chroma.pixel_size : Int) = 4 ∧
    (vout_display_opengl_GetPool genericConfig goodPool hugeState).2.2.take 2 =
      [Event.vlc_memalign 4096 4096 4,
       Event.picture_NewFromResource
         { p_sys := none, p0 := { p_pixels := 4096, i_lines := -1, i_pitch := -4 } } 1] ∧
    4 < hugeState.fmt.i_width * hugeState.chroma.pixel_size * hugeState.fmt.i_height ∧
    uploadWidth hugeState
      (pictureOfResource (frameResource genericConfig hugeState 0 true)) = 1073741823 ∧
    hugeState.tex_width <
      uploadWidth hugeState
        (pictureOfResource (frameResource genericConfig hugeState 0 true))) ∧
    ((vout_display_opengl_New genericConfig npotEnv
      (sampleFormat 600000000 1) 1).1 = some wideState ∧
    wideState.tex_width * wideState.tex_height = 600000000 ∧
    wideState.tex_width * wideState.tex_height * (wideState.chroma.pixel_size : Int)
      = 2400000000 ∧
    (2400000000 : Int) < 2 ^ 32 ∧
    (vout_display_opengl_GetPool genericConfig goodPool wideState).2.2.take 2 =
      [Event.vlc_memalign 4096 4096 2400000000,
       Event.picture_NewFromResource
         { p_sys := none,
           p0 := { p_pixels := 4096, i_lines := 1, i_pitch := -1894967296 } } 1] ∧
    (frameResource genericConfig wideState 0 true).p0.i_pitch *
        (frameResource genericConfig wideState 0 true).p0.i_lines ≠
      ((wideState.fmt.i_width * wideState.chroma.pixel_size * wideState.fmt.i_height : Nat)
        : Int)) := by
  refine ⟨⟨?_, ?_, ?_, ?_, ?_, ?_, ?_, ?_⟩, ⟨?_, ?_, ?_, ?_, ?_, ?_⟩⟩ <;> decide

/-- C10, amended: for every state built by `vout_display_opengl_New` from a
width and a height the `int` texture size represents (below `2^31` when
non-power-of-two textures are supported, at most `2^30` otherwise) and such that
`tex_width * tex_height * pixel_size` does not overflow (the `int` product
`tex_width * tex_height` is below `2^31` and the `unsigned` product with
`pixel_size` is below `2^32`), every `vlc_memalign` of
`vout_display_opengl_GetPool` asks for exactly `tex_width * tex_height *
pixel_size` bytes, which is at least `i_width * pixel_size * i_height`; for
every frame it wraps, `i_pitch * i_lines` is at most the buffer size, and equals
`i_width * pixel_size * i_height` exactly when `i_width * pixel_size` is below
`2^31` (fits the `int` pitch) or the height is `0`; and the region of
`i_pitch / pixel_size` by `i_lines` pixels uploaded from such a frame has
non-negative sides within the texture's width and height and fits in the
staging buffer. -/
theorem staging_buffer_covers_frame (cfg : BuildConfig) (env : NewEnv) (fmt : video_format_t)
    (gl : Nat) (vgl : vout_display_opengl_t) (penv : PoolEnv)
    (h : (vout_display_opengl_New cfg env fmt gl).1 = some vgl)
    (hw : fmt.i_width ≤ maxDimension (supports_npot cfg env))
    (hh : fmt.i_height ≤ maxDimension (supports_npot cfg env))
    (hint : vgl.tex_width * vgl.tex_height < 2 ^ 31)
    (hno : vgl.tex_width * vgl.tex_height * (vgl.chroma.pixel_size : Int) < 2 ^ 32) :
    ∀ e ∈ (vout_display_opengl_GetPool cfg penv vgl).2.2,
      (∀ (base buf size : Nat), e = Event.vlc_memalign base buf size →
        (size : Int) = vgl.tex_width * vgl.tex_height * (vgl.chroma.pixel_size : Int) ∧
        vgl.fmt.i_width * vgl.chroma.pixel_size * vgl.fmt.i_height ≤ size) ∧
      (∀ (rsc : picture_resource_t) (picture : Nat),
        e = Event.picture_NewFromResource rsc picture →
        (rsc.p0.i_pitch * rsc.p0.i_lines =
            ((vgl.fmt.i_width * vgl.chroma.pixel_size * vgl.fmt.i_height : Nat) : Int) ↔
          (vgl.fmt.i_width * vgl.chroma.pixel_size < 2 ^ 31 ∨ vgl.fmt.i_height = 0)) ∧
        rsc.p0.i_pitch * rsc.p0.i_lines ≤ (stagingSize vgl : Int) ∧
        0 ≤ uploadWidth (vout_display_opengl_GetPool cfg penv vgl).2.1 (pictureOfResource rsc) ∧
        uploadWidth (vout_display_opengl_GetPool cfg penv vgl).2.1 (pictureOfResource rsc) ≤
          (vout_display_opengl_GetPool cfg penv vgl).2.1.tex_width ∧
        0 ≤ (pictureOfResource rsc).p0.i_lines ∧
        (pictureOfResource rsc).p0.i_lines ≤
          (vout_display_opengl_GetPool cfg penv vgl).2.1.tex_height ∧
        uploadWidth (vout_display_opengl_GetPool cfg penv vgl).2.1 (pictureOfResource rsc) *
          (pictureOfResource rsc).p0.i_lines * (vgl.chroma.pixel_size : Int) ≤
            (stagingSize vgl : Int)) := by
  obtain ⟨_, hfmt, _, htw, hth, _⟩ := New_state cfg env fmt gl vgl h
  have hgw := textureSize_ge _ _ hw
  have hgh := textureSize_ge _ _ hh
  have hw31 : fmt.i_width < 2 ^ 31 := by
    have : maxDimension (supports_npot cfg env) < 2 ^ 31 := by
      unfold maxDimension; split <;> norm_num
    omega
  have hh31 : fmt.i_height < 2 ^ 31 := by
    have : maxDimension (supports_npot cfg env) < 2 ^ 31 := by
      unfold maxDimension; split <;> norm_num
    omega
  have hvw : vgl.fmt.i_width = fmt.i_width := by rw [hfmt, negotiatedFormat_width]
  have hvh : vgl.fmt.i_height = fmt.i_height := by rw [hfmt, negotiatedFormat_height]
  rw [← htw] at hgw
  rw [← hth] at hgh
  obtain ⟨f1, f2, f2b, f3, f4, f5, f6, f7, f8⟩ := frame_fits fmt.i_width fmt.i_height
    vgl.chroma.pixel_size vgl.tex_width vgl.tex_height hgw.1 hgh.1 hw31 hh31 hint hno
  obtain ⟨hall, gc, gw, gh⟩ := GetPool_sized cfg penv vgl
  rw [List.all_eq_true] at hall
  intro e he
  have hs := hall e he
  rw [hvw, hvh]
  constructor
  · intro base buf size heq
    subst heq
    have hsz : size = stagingSize vgl := by simpa [Event.sizedAs] using hs
    subst hsz
    exact ⟨f1, f3⟩
  · intro rsc picture heq
    subst heq
    have hp : rsc.p0.i_pitch = toInt (fmt.i_width * vgl.chroma.pixel_size) ∧
        rsc.p0.i_lines = toInt fmt.i_height := by
      simpa [Event.sizedAs, hvw, hvh] using hs
    simp only [uploadWidth, pictureOfResource, gc, gw, gh, hp.1, hp.2, stagingSize]
    exact ⟨f2, f2b, f4, f5, f6, f7, f8⟩

/-- C10, amended, on the state built without the non-power-of-two extensions
for a 20000 by 10000 source (32768 by 16384 texture, 4 bytes per pixel): the
product is `2^31`, the buffer of 2147483648 bytes covers the payload of
800000000 bytes, and the frame of pitch 80000 and 10000 lines has exactly that
payload. -/
theorem staging_buffer_covers_frame_witness :
    (vout_display_opengl_New genericConfig plainEnv (sampleFormat 20000 10000) 1).1
      = some largeState ∧
    (((2147483648 : Nat) : Int) =
      largeState.tex_width * largeState.tex_height * (largeState.chroma.pixel_size : Int) ∧
     largeState.fmt.i_width * largeState.chroma.pixel_size * largeState.fmt.i_height
      ≤ 2147483648) ∧
    (frameResource genericConfig largeState 0 false).p0.i_pitch *
        (frameResource genericConfig largeState 0 false).p0.i_lines =
      ((largeState.fmt.i_width * largeState.chroma.pixel_size * largeState.fmt.i_height
        : Nat) : Int) :=
  ⟨by decide,
   (staging_buffer_covers_frame genericConfig plainEnv (sampleFormat 20000 10000) 1 largeState
      goodPool (by decide) (by decide) (by decide) (by decide) (by decide)
      (Event.vlc_memalign 4096 4096 2147483648) (by decide)).1 4096 4096 2147483648 rfl,
   ((staging_buffer_covers_frame genericConfig plainEnv (sampleFormat 20000 10000) 1 largeState
      goodPool (by decide) (by decide) (by decide) (by decide) (by decide)
      (Event.picture_NewFromResource
        (frameResource genericConfig
          { largeState with buffer := [4096], buffer_base := [4096] } 0 false) 1)
      (by decide)).2 _ 1 rfl).1.mpr (Or.inl (by decide))⟩

end OpenGL
